import Mathlib

/-!
# Verification, registration and OTP workflow of the e-commerce backend

A shallow embedding of `controller/userController.go` (`VerifyEmail`,
`VerifyOtp`, `RegisterUser`, `UserLogin`, `GetSingleUser`, `UpdateUser`),
`controller/productController.go` (`RegisterProduct`, `UpdateProduct`,
`DeleteProduct`, `ListProductsController`, `SearchProduct`), `helper/helper.go`, `helper/sendemail.go`, the collection
calls of `database/dbcalls.go` they use, and the route wiring of
`router/routes.go` and `router/router.go`.

Modelling conventions.

* A MongoDB collection is the list of its documents in natural order;
  `FindOne` answers the first document matching the filter, `InsertOne`
  appends, `UpdateOne` with `$set` rewrites the first matching document.
* The `_id` of a document is assigned and guarded by the database. The
  handlers that find documents by email work on documents without it; the
  handlers that address a document by `_id` work on documents that show it.
  A write the database refuses is the error outcome carried by the `World`
  of the call.
* Everything a handler obtains from outside the repository during one call
  (clock readings, the random draw, the outcome of the mail dispatch, of the
  database writes, of bcrypt, of the token signer and of the identifier
  parser) is a field of `World`.
* `int64` values are integers; the one arithmetic operation of these
  handlers, `CreatedAt + OtpValidation`, wraps as Go's `int64` addition does.
* A chain of gin handlers is the list of the middlewares and the handler a
  request goes through, in order.
-/

namespace Ecommerce

/-! ## Data model (`types/verification-type.go`, `types/user-type.go`) -/

/-- Go struct `types.Verification` without its database-managed `_id`. -/
structure Verification where
  Email : String
  Otp : Int
  Status : Bool
  CreatedAt : Int
deriving DecidableEq, Repr

/-- Zero value of `types.Verification`, what `&types.Verification{}` holds. -/
def Verification.zero : Verification :=
  { Email := "", Otp := 0, Status := false, CreatedAt := 0 }

/-- Go struct `types.UserClient`, the body of a registration request. -/
structure UserClient where
  Name : String
  Email : String
  Phone : String
  Password : String
deriving DecidableEq, Repr

/-- Go struct `types.User` without its database-managed `_id`. -/
structure User where
  Name : String
  Email : String
  Phone : String
  Password : String
  UserType : String
  CreatedAt : Int
  UpdatedAt : Int
deriving DecidableEq, Repr

/-- Zero value of `types.User`, what `&types.User{}` holds. -/
def User.zero : User :=
  { Name := "", Email := "", Phone := "", Password := "", UserType := "",
    CreatedAt := 0, UpdatedAt := 0 }

/-- Identifier `primitive.ObjectID`; `0` is `primitive.NilObjectID`. -/
abbrev ObjectID := Nat

/-- Values of package `constant` that the handlers read. The package is
not among the sources, so its values are parameters of every definition. -/
structure Constant where
  EmailValidationError : String
  OtpValidationError : String
  OptAlreadySentError : String
  AlreadyVerifiedError : String
  OtpExpiredValidationError : String
  EmailIsNotVerified : String
  AlreadyRegisterWithThisEmail : String
  NormalUser : String
  OtpValidation : Int
  NotRegisteredUser : String
  PasswordNotMatchedError : String
  AdminUser : String
  NotAuthorizedUserError : String
  UserDoesNotExists : String
  NoProductAvaliable : String

/-- One message handed to the SendGrid client: recipient and the code in it. -/
structure Mail where
  recipient : String
  otp : Int
deriving DecidableEq, Repr

/-- Outcomes of everything outside the repository during one handler call. -/
structure World where
  /-- Successive readings of `time.Now().Unix()`: `now 0` is the first reading
  the call makes, `now 1` the second. -/
  now : Nat → Int
  /-- Value of the environment variable `SENDGRID_API_KEY`. -/
  apiKey : String
  /-- Raw draw of the random source behind `rng.Intn`. -/
  draw : Nat
  /-- Error returned by `client.Send`, `none` for `nil`. -/
  sendErr : Option String
  /-- Error returned by `InsertOne`, `none` for `nil`. -/
  insertErr : Option String
  /-- Error returned by `UpdateOne`, `none` for `nil`. -/
  updateErr : Option String
  /-- Result of `bcrypt.GenerateFromPassword`, `none` for an error. -/
  bcrypt : String → Option String
  /-- Result of `jwtWrapper.GenrateToken` for an email and a role; package
  `auth` is not among the sources. -/
  GenrateToken : String → String → Except String String
  /-- Error returned by `bcrypt.CompareHashAndPassword` for a stored hash and a
  password, `none` for `nil`. -/
  CompareHashAndPassword : String → String → Option String
  /-- Result of `primitive.ObjectIDFromHex`. -/
  ObjectIDFromHex : String → Except String ObjectID
  /-- The `_id` that `InsertOne` gives a document inserted without one. -/
  newId : ObjectID
  /-- Error returned by `DeleteOne`, `none` for `nil`. -/
  deleteErr : Option String

/-- Body of a `c.JSON(status, gin.H{...})` call. -/
structure Response where
  status : Nat
  error : Bool
  message : String
  data : Option User
  token : Option String
deriving DecidableEq, Repr

/-- What the client gets: the JSON written by the handler, or nothing because
the handler panicked before writing (`log.Panicln`). -/
inductive Reply where
  | json (r : Response)
  | panicked (msg : String)
deriving DecidableEq, Repr

/-- Reply `gin.H{"error": error, "message": message}` with a status code. -/
def Reply.msg (status : Nat) (error : Bool) (message : String) : Reply :=
  Reply.json { status := status, error := error, message := message,
               data := none, token := none }

/-- The two collections the handlers work on. -/
structure State where
  verifications : List Verification
  users : List User
deriving DecidableEq, Repr

/-- Result of one handler call. -/
structure Outcome where
  state : State
  reply : Reply
  mails : List Mail
deriving DecidableEq, Repr

/-! ## Integer arithmetic -/

/-- Two's complement wrap of an integer into the `int64` range. -/
def wrapInt64 (x : Int) : Int := (x + 2 ^ 63) % 2 ^ 64 - 2 ^ 63

/-- Go expression `resp.CreatedAt + constant.OtpValidation` on `int64`. -/
def expirationTime (k : Constant) (resp : Verification) : Int :=
  wrapInt64 (resp.CreatedAt + k.OtpValidation)

/-! ## Collection calls (`database/dbcalls.go`) -/

/-- Method `Insert`: `InsertOne` appends the document unless it fails. -/
def Insert {α : Type} (err : Option String) (coll : List α) (data : α) :
    List α × Option String :=
  match err with
  | some e => (coll, some e)
  | none => (coll ++ [data], none)

/-- Method `GetSingleRecordByEmail`: the first document with that email, or
the empty object when `FindOne` decodes nothing. -/
def GetSingleRecordByEmail (coll : List Verification) (email : String) : Verification :=
  match coll.find? (fun v => v.Email == email) with
  | some v => v
  | none => Verification.zero

/-- Method `GetSingleRecordByEmailForUser`: the first user with that email, or
the empty object. -/
def GetSingleRecordByEmailForUser (coll : List User) (email : String) : User :=
  match coll.find? (fun u => u.Email == email) with
  | some u => u
  | none => User.zero

/-- Effect of `UpdateOne(filter, {$set: data})` when it succeeds: the first
document with `data.Email` gets every field of `data`; no match, no change. -/
def setFirst (data : Verification) : List Verification → List Verification
  | [] => []
  | v :: vs => if v.Email == data.Email then data :: vs else v :: setFirst data vs

/-- Method `UpdateVerification`. -/
def UpdateVerification (err : Option String) (coll : List Verification)
    (data : Verification) : List Verification × Option String :=
  match err with
  | some e => (coll, some e)
  | none => (setFirst data coll, none)

/-- Method `UpdateEmailVerifiedStatus`. -/
def UpdateEmailVerifiedStatus (err : Option String) (coll : List Verification)
    (req : Verification) : List Verification × Option String :=
  match err with
  | some e => (coll, some e)
  | none => (setFirst req coll, none)

/-! ## Helpers (`helper/helper.go`, `helper/sendemail.go`) -/

/-- Function `CheckUserValidation`: `none` is Go's `nil` error. -/
def CheckUserValidation (u : UserClient) : Option String :=
  if u.Email = "" then some "email can't be empty"
  else if u.Name = "" then some "name can't be empty"
  else if u.Phone = "" then some "phone can't be empty"
  else if u.Password = "" then some "password can't be empty"
  else none

/-- Function `GenPassHash`: the bcrypt hash, or `""` when bcrypt fails. -/
def GenPassHash (w : World) (s : String) : String :=
  match w.bcrypt s with
  | none => ""
  | some bytes => bytes

/-- Function `Randomnum`: `rng.Intn(1000) + 1000`, where `Intn(1000)` is the
draw reduced to `[0, 1000)`. -/
def Randomnum (draw : Nat) : Int := ((draw % 1000 : Nat) : Int) + 1000

/-- Function `SendEmailSendGrid`: the request with its `Otp` replaced, the
error, and the messages handed to `client.Send`. -/
def SendEmailSendGrid (w : World) (req : Verification) :
    Verification × Option String × List Mail :=
  if w.apiKey = "" then
    (req, some "SENDGRID_API_KEY environment variable is not set", [])
  else
    let otp := Randomnum w.draw
    let req := { req with Otp := otp }
    match w.sendErr with
    | some e => (req, some e, [{ recipient := req.Email, otp := otp }])
    | none => (req, none, [{ recipient := req.Email, otp := otp }])

/-! ## Handlers (`controller/userController.go`) -/

/-- Handler `VerifyEmail`; `body` is the result of `c.BindJSON(&req)`. -/
def VerifyEmail (k : Constant) (w : World) (s : State)
    (body : Except String Verification) : Outcome :=
  match body with
  | .error postBodyErr =>
    { state := s, reply := Reply.msg 400 true postBodyErr, mails := [] }
  | .ok req =>
    if req.Email = "" then
      { state := s, reply := Reply.msg 400 true k.EmailValidationError, mails := [] }
    else
      let resp := GetSingleRecordByEmail s.verifications req.Email
      if resp.Otp ≠ 0 then
        if expirationTime k resp < w.now 0 then
          match SendEmailSendGrid w req with
          | (_, some checkEmail, mails) =>
            { state := s, reply := Reply.panicked checkEmail, mails := mails }
          | (req, none, mails) =>
            let req := { req with CreatedAt := w.now 1 }
            let upd := UpdateVerification w.updateErr s.verifications req
            { state := { s with verifications := upd.1 },
              reply := Reply.msg 200 false "OTP sent successfully", mails := mails }
        else
          { state := s, reply := Reply.msg 400 true k.OptAlreadySentError, mails := [] }
      else
        match SendEmailSendGrid w req with
        | (_, some _, mails) =>
          { state := s, reply := Reply.msg 400 true k.EmailValidationError, mails := mails }
        | (req, none, mails) =>
          let req := { req with CreatedAt := w.now 0 }
          let ins := Insert w.insertErr s.verifications req
          { state := { s with verifications := ins.1 },
            reply := Reply.msg 200 false "OTP sent successfully", mails := mails }

/-- Handler `VerifyOtp`; `body` is the result of `c.BindJSON(&req)`. -/
def VerifyOtp (k : Constant) (w : World) (s : State)
    (body : Except String Verification) : Outcome :=
  match body with
  | .error postBodyErr =>
    { state := s, reply := Reply.msg 400 true postBodyErr, mails := [] }
  | .ok req =>
    if req.Email = "" then
      { state := s, reply := Reply.msg 400 true k.EmailValidationError, mails := [] }
    else if req.Otp ≤ 0 then
      { state := s, reply := Reply.msg 400 true k.OtpValidationError, mails := [] }
    else
      let resp := GetSingleRecordByEmail s.verifications req.Email
      if resp.Status then
        { state := s, reply := Reply.msg 400 true k.AlreadyVerifiedError, mails := [] }
      else if resp.Otp ≠ req.Otp then
        { state := s, reply := Reply.msg 400 true k.OtpValidationError, mails := [] }
      else if expirationTime k resp < w.now 0 then
        { state := s, reply := Reply.msg 400 true k.OtpExpiredValidationError, mails := [] }
      else
        let req := { req with Status := true, CreatedAt := w.now 1 }
        match UpdateEmailVerifiedStatus w.updateErr s.verifications req with
        | (_, some _) =>
          { state := s, reply := Reply.msg 400 true k.OtpValidationError, mails := [] }
        | (coll, none) =>
          { state := { s with verifications := coll },
            reply := Reply.msg 200 false "Email verified successfully", mails := [] }

/-- Handler `RegisterUser`; `body` is the result of `c.BindJSON(&userClient)`. -/
def RegisterUser (k : Constant) (w : World) (s : State)
    (body : Except String UserClient) : Outcome :=
  match body with
  | .error regErr =>
    { state := s, reply := Reply.msg 400 true regErr, mails := [] }
  | .ok userClient =>
    match CheckUserValidation userClient with
    | some err =>
      { state := s, reply := Reply.msg 400 true err, mails := [] }
    | none =>
      let verificationResp := GetSingleRecordByEmail s.verifications userClient.Email
      if !verificationResp.Status then
        { state := s, reply := Reply.msg 400 true k.EmailIsNotVerified, mails := [] }
      else
        let userResp := GetSingleRecordByEmailForUser s.users userClient.Email
        if userResp.Email ≠ "" then
          { state := s, reply := Reply.msg 400 true k.AlreadyRegisterWithThisEmail,
            mails := [] }
        else
          let dbUser : User :=
            { Email := userClient.Email, Name := userClient.Name,
              Phone := userClient.Phone, UserType := k.NormalUser,
              Password := GenPassHash w userClient.Password,
              CreatedAt := w.now 0, UpdatedAt := w.now 1 }
          match Insert w.insertErr s.users dbUser with
          | (_, some err) =>
            { state := s, reply := Reply.msg 400 true err, mails := [] }
          | (users, none) =>
            match w.GenrateToken userClient.Email k.NormalUser with
            | .error err =>
              { state := { s with users := users }, reply := Reply.msg 400 true err,
                mails := [] }
            | .ok token =>
              { state := { s with users := users },
                reply := Reply.json
                  { status := 200, error := false, message := "Registration successful",
                    data := some dbUser, token := some token },
                mails := [] }

/-! ## Documents, request context and JSON replies of the remaining handlers -/

/-- Go struct `types.Login`, the body of a login request. -/
structure Login where
  Email : String
  Password : String
deriving DecidableEq, Repr

/-- A document of the user collection with its `_id`: Go struct `types.User`
in full, `doc` holding the fields other than `Id`. -/
structure UserDoc where
  Id : ObjectID
  doc : User
deriving DecidableEq, Repr

/-- Go struct `types.UserUpdateClient`, the body of an update-user request. -/
structure UserUpdateClient where
  Id : String
  Name : String
  Email : String
  Phone : String
  Password : String
deriving DecidableEq, Repr

/-- Go struct `types.Product`. A `float64` price read from JSON is finite and
is only compared with zero, so it is the rational it denotes; `MetaInfo` is
only copied and is kept as its JSON text. -/
structure Product where
  Id : ObjectID
  Name : String
  Description : String
  Price : ℚ
  ImageUrl : String
  MetaInfo : String
  CreatedAt : Int
  UpdatedAt : Int
deriving DecidableEq, Repr

/-- Zero value of `types.Product`. -/
def Product.zero : Product :=
  { Id := 0, Name := "", Description := "", Price := 0, ImageUrl := "", MetaInfo := "",
    CreatedAt := 0, UpdatedAt := 0 }

/-- Go struct `types.ProductClient`, the body of a register-product request. -/
structure ProductClient where
  Name : String
  Description : String
  Price : ℚ
  ImageUrl : String
  MetaInfo : String
deriving DecidableEq, Repr

/-- Go struct `types.UpdateProduct`, the body of an update-product request
(named apart from the handler `UpdateProduct`). -/
structure UpdateProductBody where
  ID : String
  Name : String
  Description : String
  Price : ℚ
deriving DecidableEq, Repr

/-- A value of a `gin.H` map; `listing` is the map
`{"products": products, "totalcount": totalcount}` of the list replies. -/
inductive JVal where
  | bool (b : Bool)
  | str (s : String)
  | user (u : UserDoc)
  | product (p : Product)
  | updateProduct (u : UpdateProductBody)
  | listing (products : List Product) (totalcount : Int)
deriving DecidableEq, Repr

/-- One `c.JSON(status, gin.H{...})` call: the status and the keys with their
values, in the order the source writes them. -/
structure Write where
  status : Nat
  body : List (String × JVal)
deriving DecidableEq, Repr

/-- Call `c.JSON(status, gin.H{"error": error, "message": message})`. -/
def Write.msg (status : Nat) (error : Bool) (message : String) : Write :=
  { status := status, body := [("error", JVal.bool error), ("message", JVal.str message)] }

/-- Call `c.JSON(status, gin.H{"err": true, "message": message})`, the error
reply of the product handlers. -/
def Write.err (status : Nat) (message : String) : Write :=
  { status := status, body := [("err", JVal.bool true), ("message", JVal.str message)] }

/-- Result of one call of a handler on a state `σ`: the state after it, the
`c.JSON` calls it made in order, the panic that ended it if any, and the
calls it made to the token issuer (email and role). -/
structure Run (σ : Type) where
  state : σ
  writes : List Write
  panicked : Option String
  signed : List (String × String)
deriving DecidableEq, Repr

/-- A run that writes one reply and returns. -/
def Run.reply {σ : Type} (s : σ) (wr : Write) : Run σ :=
  { state := s, writes := [wr], panicked := none, signed := [] }

/-- What a handler reads from its `*gin.Context`: the value stored under
`"email"` by the Auth Gate (`c.Get`), the path parameter `id` (`c.Param`),
the query parameter `id` (`c.Query`) and the result of `c.BindJSON`. -/
structure Context (β : Type) where
  email : Option String
  param : String
  query : String
  body : Except String β

/-- User and product collections, the state of the product handlers. -/
structure Shop where
  users : List User
  products : List Product
deriving DecidableEq, Repr

/-! ## Collection calls addressed by `_id` (`database/dbcalls.go`) -/

/-- Method `GetSingleUserByUserId`: the first document with that `_id`, or the
zero user and the error of `Decode`. -/
def Mgr.GetSingleUserByUserId (coll : List UserDoc) (id : ObjectID) :
    UserDoc × Option String :=
  match coll.find? (fun d => d.Id == id) with
  | some d => (d, none)
  | none => ({ Id := 0, doc := User.zero }, some "mongo: no documents in result")

/-- Effect of a successful `UpdateOne({_id: u.Id}, {$set: u})` on the user
collection: the first document with that `_id` gets every field of `u`. -/
def setUser (u : UserDoc) : List UserDoc → List UserDoc
  | [] => []
  | d :: ds => if d.Id == u.Id then u :: ds else d :: setUser u ds

/-- Method `UpdateUser` of the manager. -/
def Mgr.UpdateUser (err : Option String) (coll : List UserDoc) (u : UserDoc) :
    List UserDoc × Option String :=
  match err with
  | some e => (coll, some e)
  | none => (setUser u coll, none)

/-- Method `Insert` on the product collection, whose documents show their
`_id`: a document without one gets `newId`; the result carries `InsertedID`. -/
def InsertWithId (w : World) (coll : List Product) (p : Product) :
    List Product × Option ObjectID × Option String :=
  match w.insertErr with
  | some e => (coll, none, some e)
  | none =>
    let id := if p.Id = 0 then w.newId else p.Id
    (coll ++ [{ p with Id := id }], some id, none)

/-- Method `GetSingleProductById`: the first product with that `_id`, or the
zero product and the error of `Decode`. -/
def Mgr.GetSingleProductById (coll : List Product) (id : ObjectID) :
    Product × Option String :=
  match coll.find? (fun p => p.Id == id) with
  | some p => (p, none)
  | none => (Product.zero, some "mongo: no documents in result")

/-- Effect of a successful `UpdateOne({_id: p.Id}, {$set: p})` on the product
collection. -/
def setProduct (p : Product) : List Product → List Product
  | [] => []
  | q :: qs => if q.Id == p.Id then p :: qs else q :: setProduct p qs

/-- Method `UpdateProduct` of the manager. -/
def Mgr.UpdateProduct (err : Option String) (coll : List Product) (p : Product) :
    List Product × Option String :=
  match err with
  | some e => (coll, some e)
  | none => (setProduct p coll, none)

/-- Effect of a successful `DeleteOne({_id: id})`: the first product with that
`_id` is removed. -/
def removeProduct (id : ObjectID) : List Product → List Product
  | [] => []
  | q :: qs => if q.Id == id then qs else q :: removeProduct id qs

/-- Method `DeleteProduct` of the manager. -/
def Mgr.DeleteProduct (err : Option String) (coll : List Product) (id : ObjectID) :
    List Product × Option String :=
  match err with
  | some e => (coll, some e)
  | none => (removeProduct id coll, none)

/-- Function `CheckProductValidation`: `none` is Go's `nil` error. -/
def CheckProductValidation (p : ProductClient) : Option String :=
  if p.Description = "" then some "description of product can't be empty"
  else if p.Name = "" then some "name of product can't be empty"
  else if p.ImageUrl = "" then some "description of product can't be empty"
  else if p.Price = 0 then some "price of product can't be 0"
  else none

/-! ## Login and user handlers (`controller/userController.go`) -/

/-- Handler `UserLogin`; `body` is the result of `c.BindJSON(&loginReq)`. The
`log.Panicln` on a binding error panics before anything is written. -/
def UserLogin (k : Constant) (w : World) (s : State) (body : Except String Login) :
    Run State :=
  match body with
  | .error err => { state := s, writes := [], panicked := some err, signed := [] }
  | .ok loginReq =>
    let userResp := GetSingleRecordByEmailForUser s.users loginReq.Email
    if userResp.Email = "" then
      Run.reply s (Write.msg 400 true k.NotRegisteredUser)
    else
      match w.CompareHashAndPassword userResp.Password loginReq.Password with
      | some _ => Run.reply s (Write.msg 400 true k.PasswordNotMatchedError)
      | none =>
        match w.GenrateToken userResp.Email userResp.UserType with
        | .error err =>
          { state := s, writes := [Write.msg 400 true err], panicked := none,
            signed := [(userResp.Email, userResp.UserType)] }
        | .ok token =>
          { state := s,
            writes := [{ status := 200,
                         body := [("error", JVal.bool false),
                                  ("message", JVal.str "Login successful"),
                                  ("token", JVal.str token)] }],
            panicked := none,
            signed := [(userResp.Email, userResp.UserType)] }

/-- Handler `GetSingleUser`. After a failed `ObjectIDFromHex` it writes the
error and goes on with `NilObjectID`, there being no `return`. -/
def GetSingleUser (k : Constant) (w : World) (s : List UserDoc) (c : Context Unit) :
    Run (List UserDoc) :=
  let parsed : ObjectID × List Write :=
    match w.ObjectIDFromHex c.param with
    | .error err => (0, [Write.msg 400 true err])
    | .ok userId => (userId, [])
  let user := (Mgr.GetSingleUserByUserId s parsed.1).1
  if user.doc.Email = "" then
    { state := s, writes := parsed.2 ++ [Write.msg 400 true k.NotRegisteredUser],
      panicked := none, signed := [] }
  else
    let user := { user with doc := { user.doc with Password := "" } }
    { state := s,
      writes := parsed.2 ++ [{ status := 200,
                               body := [("message", JVal.str "success"),
                                        ("error", JVal.bool true),
                                        ("data", JVal.user user)] }],
      panicked := none, signed := [] }

/-- Handler `UpdateUser`. -/
def UpdateUser (k : Constant) (w : World) (s : List UserDoc)
    (c : Context UserUpdateClient) : Run (List UserDoc) :=
  match c.body with
  | .error err => Run.reply s (Write.msg 400 true err)
  | .ok userUpdate =>
    match w.ObjectIDFromHex userUpdate.Id with
    | .error err => Run.reply s (Write.msg 400 true err)
    | .ok userId =>
      let userResp := (Mgr.GetSingleUserByUserId s userId).1
      if userResp.doc.Email = "" then
        Run.reply s (Write.msg 400 true k.UserDoesNotExists)
      else
        let user : UserDoc :=
          { Id := userId,
            doc :=
              { Name := if userUpdate.Name ≠ "" then userUpdate.Name else userResp.doc.Name,
                Email :=
                  if userUpdate.Email ≠ "" then userUpdate.Email else userResp.doc.Email,
                Password :=
                  if userUpdate.Password ≠ "" then userUpdate.Password
                  else userResp.doc.Password,
                Phone :=
                  if userUpdate.Phone ≠ "" then userUpdate.Phone else userResp.doc.Phone,
                UserType := userResp.doc.UserType,
                UpdatedAt := w.now 0,
                CreatedAt := userResp.doc.CreatedAt } }
        match Mgr.UpdateUser w.updateErr s user with
        | (_, some _) => Run.reply s (Write.msg 400 true k.UserDoesNotExists)
        | (coll, none) =>
          Run.reply coll { status := 200,
                           body := [("message", JVal.str "success"),
                                    ("error", JVal.bool true),
                                    ("data", JVal.user user)] }

/-! ## Product handlers (`controller/productController.go`) -/

/-- Handler `RegisterProduct`. The type assertion `id.(primitive.ObjectID)`
comes before the error check and panics on the `nil` id of a failed insert. -/
def RegisterProduct (k : Constant) (w : World) (s : Shop) (c : Context ProductClient) :
    Run Shop :=
  match c.email with
  | none => Run.reply s (Write.err 500 k.NotRegisteredUser)
  | some userEmail =>
    let userResp := GetSingleRecordByEmailForUser s.users userEmail
    if userResp.UserType ≠ k.AdminUser then
      Run.reply s (Write.err 500 k.NotAuthorizedUserError)
    else
      match c.body with
      | .error err => Run.reply s (Write.err 500 err)
      | .ok productRequest =>
        match CheckProductValidation productRequest with
        | some err => Run.reply s (Write.err 500 err)
        | none =>
          let p : Product :=
            { Id := 0, Name := productRequest.Name,
              Description := productRequest.Description,
              ImageUrl := productRequest.ImageUrl, Price := productRequest.Price,
              MetaInfo := productRequest.MetaInfo,
              CreatedAt := w.now 0, UpdatedAt := w.now 1 }
          match InsertWithId w s.products p with
          | (coll, some id, none) =>
            Run.reply { s with products := coll }
              { status := 200,
                body := [("error", JVal.bool false), ("message", JVal.str "success"),
                         ("data", JVal.product { p with Id := id })] }
          | (coll, some _, some err) =>
            Run.reply { s with products := coll } (Write.err 500 err)
          | (coll, none, _) =>
            { state := { s with products := coll }, writes := [],
              panicked := some "interface conversion: interface \x7b\x7d is nil, not primitive.ObjectID",
              signed := [] }

/-- Handler `UpdateProduct`. -/
def UpdateProduct (k : Constant) (w : World) (s : Shop) (c : Context UpdateProductBody) :
    Run Shop :=
  match c.email with
  | none => Run.reply s (Write.err 500 k.NotRegisteredUser)
  | some userEmail =>
    let userResp := GetSingleRecordByEmailForUser s.users userEmail
    if userResp.UserType ≠ k.AdminUser then
      Run.reply s (Write.err 500 k.NotAuthorizedUserError)
    else
      match c.body with
      | .error err => Run.reply s (Write.err 500 err)
      | .ok updatedReq =>
        match w.ObjectIDFromHex updatedReq.ID with
        | .error err => Run.reply s (Write.err 500 err)
        | .ok objId =>
          match Mgr.GetSingleProductById s.products objId with
          | (_, some err) => Run.reply s (Write.err 500 err)
          | (productResp, none) =>
            if productResp.Name = "" then
              Run.reply s (Write.err 500 k.NoProductAvaliable)
            else
              let req : Product :=
                { Id := productResp.Id,
                  Description :=
                    if updatedReq.Description ≠ "" then updatedReq.Description
                    else productResp.Description,
                  Name := if updatedReq.Name ≠ "" then updatedReq.Name else productResp.Name,
                  Price := if updatedReq.Price > 0 then updatedReq.Price else productResp.Price,
                  MetaInfo := productResp.MetaInfo,
                  ImageUrl := productResp.ImageUrl,
                  CreatedAt := productResp.CreatedAt,
                  UpdatedAt := w.now 0 }
              match Mgr.UpdateProduct w.updateErr s.products req with
              | (_, some err) => Run.reply s (Write.err 500 err)
              | (coll, none) =>
                Run.reply { s with products := coll }
                  { status := 200,
                    body := [("error", JVal.bool false), ("message", JVal.str "success"),
                             ("data", JVal.updateProduct updatedReq)] }

/-- Handler `DeleteProduct`. -/
def DeleteProduct (k : Constant) (w : World) (s : Shop) (c : Context Unit) : Run Shop :=
  match c.email with
  | none => Run.reply s (Write.err 500 k.NotRegisteredUser)
  | some userEmail =>
    let userResp := GetSingleRecordByEmailForUser s.users userEmail
    if userResp.UserType ≠ k.AdminUser then
      Run.reply s (Write.err 500 k.NotAuthorizedUserError)
    else
      match w.ObjectIDFromHex c.query with
      | .error err => Run.reply s (Write.err 500 err)
      | .ok objId =>
        match Mgr.GetSingleProductById s.products objId with
        | (_, some err) => Run.reply s (Write.err 500 err)
        | (productResp, none) =>
          if productResp.Name = "" then
            Run.reply s (Write.err 500 k.NoProductAvaliable)
          else
            match Mgr.DeleteProduct w.deleteErr s.products objId with
            | (_, some err) => Run.reply s (Write.err 500 err)
            | (coll, none) =>
              Run.reply { s with products := coll } (Write.msg 200 false "success")

/-! ## Product listing (`controller/productController.go`, `database/dbcalls.go`) -/

/-- The query parameters the list handlers read, `none` for a parameter the
request does not carry. -/
structure ListQuery where
  page : Option String
  limit : Option String
  offset : Option String
  search : Option String
deriving DecidableEq, Repr

/-- Outcomes of the library calls behind the list handlers during one call. -/
structure QueryWorld where
  /-- Result of `strconv.Atoi`, `none` for an error. -/
  Atoi : String → Option Int
  /-- Result of `Find` followed by `cur.All` on the product collection, for
  the search text of the filter (`none` for the empty filter), the skip and
  the limit. -/
  Find : List Product → Option String → Int → Int → Except String (List Product)
  /-- Error returned by `CountDocuments`, `none` for `nil`. -/
  countErr : Option String

/-- Method `DefaultQuery` of gin: the parameter, or the default when the
request does not carry it. -/
def DefaultQuery (value : Option String) (defaultValue : String) : String :=
  match value with
  | some v => v
  | none => defaultValue

/-- Function `ConvertStringIntoInt`: the value `strconv.Atoi` reads, or `0`. -/
def ConvertStringIntoInt (q : QueryWorld) (s : String) : Int :=
  match q.Atoi s with
  | none => 0
  | some val => val

/-- Method `GetListProducts`: the products of the page, the count of all
products and the error. -/
def Mgr.GetListProducts (q : QueryWorld) (coll : List Product) (page limit offset : Int) :
    List Product × Int × Option String :=
  let skip := if offset > 0 then offset else wrapInt64 (wrapInt64 (page - 1) * limit)
  match q.Find coll none skip limit with
  | .error err => ([], 0, some err)
  | .ok products =>
    match q.countErr with
    | some err => ([], 0, some err)
    | none => (products, coll.length, none)

/-- Method `SearchProduct` of the manager: as `GetListProducts`, with the
filter on name and description when the search text has three bytes or more. -/
def Mgr.SearchProduct (q : QueryWorld) (coll : List Product) (page limit offset : Int)
    (search : String) : List Product × Int × Option String :=
  let skip := if offset > 0 then offset else wrapInt64 (wrapInt64 (page - 1) * limit)
  let searchFilter := if search.utf8ByteSize ≥ 3 then some search else none
  match q.Find coll searchFilter skip limit with
  | .error err => ([], 0, some err)
  | .ok products =>
    match q.countErr with
    | some err => ([], 0, some err)
    | none => (products, coll.length, none)

/-- Handler `ListProductsController`. After a failed query it writes the
error and goes on to the success reply, there being no `return`. -/
def ListProductsController (q : QueryWorld) (s : Shop) (c : ListQuery) : Run Shop :=
  let page := DefaultQuery c.page "1"
  let limit := DefaultQuery c.limit "10"
  let offset := DefaultQuery c.offset "0"
  let pageInt := ConvertStringIntoInt q page
  let limitInt := ConvertStringIntoInt q limit
  let offsetInt := ConvertStringIntoInt q offset
  let r := Mgr.GetListProducts q s.products pageInt limitInt offsetInt
  let failed : List Write :=
    match r.2.2 with
    | some err => [Write.err 500 err]
    | none => []
  { state := s,
    writes := failed ++ [{ status := 200,
                           body := [("error", JVal.bool false),
                                    ("message", JVal.str "success"),
                                    ("data", JVal.listing r.1 r.2.1)] }],
    panicked := none, signed := [] }

/-- Handler `SearchProduct`. After a failed query it writes the error and
goes on to the success reply, there being no `return`. -/
def SearchProduct (q : QueryWorld) (s : Shop) (c : ListQuery) : Run Shop :=
  let page := DefaultQuery c.page "1"
  let limit := DefaultQuery c.limit "10"
  let offset := DefaultQuery c.offset "0"
  let search := DefaultQuery c.search ""
  let pageInt := ConvertStringIntoInt q page
  let limitInt := ConvertStringIntoInt q limit
  let offsetInt := ConvertStringIntoInt q offset
  let r := Mgr.SearchProduct q s.products pageInt limitInt offsetInt search
  let failed : List Write :=
    match r.2.2 with
    | some err => [Write.err 500 err]
    | none => []
  { state := s,
    writes := failed ++ [{ status := 200,
                           body := [("error", JVal.bool false),
                                    ("message", JVal.str "success"),
                                    ("data", JVal.listing r.1 r.2.1)] }],
    panicked := none, signed := [] }

/-! ## Route tables and wiring (`router/routes.go`, `router/router.go`) -/

/-- The middlewares and the handler functions the route tables name;
`invalidMethod` is the inline handler of the `default` case. -/
inductive Handler where
  | Logger | Recovery | CORSEMiddleware | Auth
  | VerifyEmail | VerifyOtp | RegisterUser | UserLogin
  | ListProductsController | SearchProduct
  | RegisterProduct | UpdateProduct | DeleteProduct
  | AddToCart | AddAddressOfUser | GetSingleUser | UpdateUser | CheckoutOrder
  | invalidMethod
deriving DecidableEq, Repr

/-- Route patterns of package `constant`, which is not among the sources. -/
structure RouteConstant where
  VerifyEmailRoute : String
  VerifyOtpRoute : String
  ResendEmailRoute : String
  UserRegisterRoute : String
  UserLoginRoute : String
  ListProductRoute : String
  SearchProductRoute : String
  RegisterProductRoute : String
  UpdateProductRoute : String
  DeleteProductRoute : String
  AddToCartRoute : String
  AddAddressRoute : String
  GetSingleUserRoute : String
  UpdateUser : String
  CheckoutRoute : String

/-- Go struct `Route`. -/
structure Route where
  Name : String
  Method : String
  Pattern : String
  HandlerFunc : Handler
deriving DecidableEq, Repr

/-- Table `userRoutes`. -/
def userRoutes (rc : RouteConstant) : List Route :=
  [ ⟨"VerifyEmail", "POST", rc.VerifyEmailRoute, Handler.VerifyEmail⟩,
    ⟨"VerifyOtp", "POST", rc.VerifyOtpRoute, Handler.VerifyOtp⟩,
    ⟨"Email", "POST", rc.ResendEmailRoute, Handler.VerifyEmail⟩,
    ⟨"RegisterUser", "POST", rc.UserRegisterRoute, Handler.RegisterUser⟩,
    ⟨"LoginUser", "POST", rc.UserLoginRoute, Handler.UserLogin⟩ ]

/-- Table `productGlobalRoutes`. -/
def productGlobalRoutes (rc : RouteConstant) : List Route :=
  [ ⟨"List Product", "GET", rc.ListProductRoute, Handler.ListProductsController⟩,
    ⟨"Search Product", "POST", rc.SearchProductRoute, Handler.SearchProduct⟩ ]

/-- Table `productRoutes`. -/
def productRoutes (rc : RouteConstant) : List Route :=
  [ ⟨"Register Product", "POST", rc.RegisterProductRoute, Handler.RegisterProduct⟩,
    ⟨"Update Product", "PUT", rc.UpdateProductRoute, Handler.UpdateProduct⟩,
    ⟨"Delete PRoduct", "DELETE", rc.DeleteProductRoute, Handler.DeleteProduct⟩ ]

/-- Table `userAuthRoutes`. -/
def userAuthRoutes (rc : RouteConstant) : List Route :=
  [ ⟨"Add to cart", "POST", rc.AddToCartRoute, Handler.AddToCart⟩,
    ⟨"AddAddress", "POST", rc.AddAddressRoute, Handler.AddAddressOfUser⟩,
    ⟨"Get Single User", "POST", rc.GetSingleUserRoute, Handler.GetSingleUser⟩,
    ⟨"Update User", "PUT", rc.UpdateUser, Handler.UpdateUser⟩,
    ⟨"Checkout Order", "PUT", rc.CheckoutRoute, Handler.CheckoutOrder⟩ ]

/-- A `*gin.RouterGroup`: the relative paths that make its base path and the
handlers every route registered on it starts with. -/
structure RouterGroup where
  basePath : List String
  Handlers : List Handler
deriving DecidableEq, Repr

/-- Method `Group` of gin: the new group starts from a copy of the handlers
the parent has at that moment. -/
def RouterGroup.Group (rg : RouterGroup) (relativePath : String) : RouterGroup :=
  { basePath := rg.basePath ++ [relativePath], Handlers := rg.Handlers }

/-- Method `Use` of gin: the middleware is added at the end of the group's
handlers. -/
def RouterGroup.Use (rg : RouterGroup) (middleware : Handler) : RouterGroup :=
  { rg with Handlers := rg.Handlers ++ [middleware] }

/-- A route as the engine holds it: method, path and the chain of handlers a
request goes through, the group's handlers first and the route's own last. -/
structure RouteInfo where
  method : String
  path : List String
  chain : List Handler
deriving DecidableEq, Repr

/-- Methods `GET`, `POST`, ... of gin: register the handler on the group. -/
def RouterGroup.handle (rg : RouterGroup) (method pattern : String) (h : Handler) :
    RouteInfo :=
  { method := method, path := rg.basePath ++ [pattern], chain := rg.Handlers ++ [h] }

/-- The `switch route.Method` of the four wiring functions. -/
def registerRoute (rg : RouterGroup) (route : Route) : RouteInfo :=
  if route.Method = "GET" then rg.handle "GET" route.Pattern route.HandlerFunc
  else if route.Method = "POST" then rg.handle "POST" route.Pattern route.HandlerFunc
  else if route.Method = "OPTIONS" then rg.handle "OPTIONS" route.Pattern route.HandlerFunc
  else if route.Method = "PUT" then rg.handle "PUT" route.Pattern route.HandlerFunc
  else if route.Method = "DELETE" then rg.handle "DELETE" route.Pattern route.HandlerFunc
  else rg.handle "GET" route.Pattern Handler.invalidMethod

/-- Method `EcommerceUser`: the routes it registers. -/
def EcommerceUser (rc : RouteConstant) (rg : RouterGroup) : List RouteInfo :=
  let orderRouteGrouping := (rg.Group "/ecommerce").Use Handler.CORSEMiddleware
  (userRoutes rc).map (registerRoute orderRouteGrouping)

/-- Method `EcommerceProduct`: the routes it registers. -/
def EcommerceProduct (rc : RouteConstant) (rg : RouterGroup) : List RouteInfo :=
  let orderRouteGrouping := (rg.Group "/ecommerce").Use Handler.CORSEMiddleware
  (productRoutes rc).map (registerRoute orderRouteGrouping)

/-- Method `EcommerceGlobalProductRoutes`: the routes it registers. -/
def EcommerceGlobalProductRoutes (rc : RouteConstant) (rg : RouterGroup) : List RouteInfo :=
  let orderRouteGrouping := (rg.Group "/ecommerce-product").Use Handler.CORSEMiddleware
  (productGlobalRoutes rc).map (registerRoute orderRouteGrouping)

/-- Method `EcommerceAuthUser`: the routes it registers. -/
def EcommerceAuthUser (rc : RouteConstant) (rg : RouterGroup) : List RouteInfo :=
  let orderRouteGrouping := (rg.Group "/ecommerce").Use Handler.CORSEMiddleware
  (userAuthRoutes rc).map (registerRoute orderRouteGrouping)

/-- Function `ClientRoutes` up to `router.Run`: the routes of the engine.
`gin.Default()` starts the engine with the logger and recovery middlewares;
`apiVersion` is the environment variable `API_VERSION`. -/
def ClientRoutes (rc : RouteConstant) (apiVersion : String) : List RouteInfo :=
  let router : RouterGroup := { basePath := [], Handlers := [Handler.Logger, Handler.Recovery] }
  let v1 := router.Group apiVersion
  let t1 := EcommerceUser rc v1
  let t2 := EcommerceGlobalProductRoutes rc v1
  let v1 := v1.Use Handler.Auth
  let t3 := EcommerceProduct rc v1
  let t4 := EcommerceAuthUser rc v1
  t1 ++ t2 ++ t3 ++ t4

/-! ## Concrete constants and worlds used to evaluate the handlers -/

/-- Modelled from the spec: package `constant` is not among the sources. The
messages are the error reasons the spec names, the role is its `normal`, and
the validity window is the 24 hours of its scenario, in seconds. -/
def specConstant : Constant :=
  { EmailValidationError := "email is empty or invalid"
    OtpValidationError := "otp is empty or invalid"
    OptAlreadySentError := "OTP already sent"
    AlreadyVerifiedError := "already verified"
    OtpExpiredValidationError := "otp expired"
    EmailIsNotVerified := "email not verified"
    AlreadyRegisterWithThisEmail := "already registered"
    NormalUser := "normal"
    OtpValidation := 86400
    NotRegisteredUser := "user is not registered"
    PasswordNotMatchedError := "password does not match"
    AdminUser := "admin"
    NotAuthorizedUserError := "user is not authorized"
    UserDoesNotExists := "user does not exist"
    NoProductAvaliable := "no product available" }

/-- Value of one hexadecimal digit. -/
def hexDigit (c : Char) : Option Nat :=
  if '0' ≤ c ∧ c ≤ '9' then some (c.toNat - '0'.toNat)
  else if 'a' ≤ c ∧ c ≤ 'f' then some (c.toNat - 'a'.toNat + 10)
  else if 'A' ≤ c ∧ c ≤ 'F' then some (c.toNat - 'A'.toNat + 10)
  else none

/-- Identifier written as 24 hexadecimal digits, the text form of an
`ObjectID`; anything else is refused. -/
def parseObjectID (s : String) : Except String ObjectID :=
  if s.length ≠ 24 then .error "the provided hex string is not a valid ObjectID"
  else
    match s.toList.foldl
        (fun acc c => acc.bind (fun n => (hexDigit c).map (fun d => 16 * n + d)))
        (some 0) with
    | some n => .ok n
    | none => .error "encoding/hex: invalid byte"

/-- A world in which every collaborator succeeds: the clock reads `t` all
through the call and the random source draws `draw`. -/
def healthyWorld (t : Int) (draw : Nat) : World :=
  { now := fun _ => t
    apiKey := "SG.key"
    draw := draw
    sendErr := none
    insertErr := none
    updateErr := none
    bcrypt := fun p => some ("$2a$04$" ++ p)
    GenrateToken := fun email role => .ok ("jwt:" ++ email ++ ":" ++ role)
    CompareHashAndPassword := fun hash password =>
      if hash = "$2a$04$" ++ password then none
      else some "crypto/bcrypt: hashedPassword is not the hash of the given password"
    ObjectIDFromHex := parseObjectID
    newId := 4095
    deleteErr := none }

/-- Decimal integer with an optional sign that fits `int64`, the text
`strconv.Atoi` reads. -/
def atoi (s : String) : Option Int :=
  let digits : List Char → Option Int := fun cs =>
    if cs = [] ∨ ¬ cs.all Char.isDigit then none
    else some ((cs.foldl (fun n c => 10 * n + (c.toNat - '0'.toNat)) 0 : Nat) : Int)
  let value : Option Int :=
    match s.toList with
    | '-' :: cs => (digits cs).map (fun n => -n)
    | '+' :: cs => digits cs
    | cs => digits cs
  value.bind (fun n => if -(2 ^ 63) ≤ n ∧ n < 2 ^ 63 then some n else none)

/-- A database that answers every query it accepts: a negative skip is
refused, as MongoDB does; a limit of zero means no limit and a negative limit
its absolute value; the search text selects the products whose name or
description contains it, letter case apart. -/
def healthyQueryWorld : QueryWorld :=
  { Atoi := atoi
    Find := fun coll searchFilter skip limit =>
      if skip < 0 then .error "(BadValue) Skip value must be non-negative"
      else
        let found :=
          match searchFilter with
          | none => coll
          | some text =>
            coll.filter (fun p =>
              decide (text.toLower.toList <:+: p.Name.toLower.toList)
                || decide (text.toLower.toList <:+: p.Description.toLower.toList))
        let rest := found.drop skip.toNat
        .ok (if limit = 0 then rest else rest.take limit.natAbs)
    countErr := none }

/-- A healthy world whose bcrypt refuses a password longer than 72 bytes, as
`bcrypt.GenerateFromPassword` does when it returns `ErrPasswordTooLong`. -/
def strictBcryptWorld (t : Int) (draw : Nat) : World :=
  { healthyWorld t draw with
    bcrypt := fun p => if p.utf8ByteSize > 72 then none else some ("$2a$04$" ++ p) }

/-- Request body `{"email": email}`: every other field has its zero value. -/
def emailBody (email : String) : Except String Verification :=
  .ok { Email := email, Otp := 0, Status := false, CreatedAt := 0 }

/-- Request body `{"email": email, "otp": otp}`. -/
def otpBody (email : String) (otp : Int) : Except String Verification :=
  .ok { Email := email, Otp := otp, Status := false, CreatedAt := 0 }

/-! ## Vocabulary of the specification -/

/-- The record the Verification Store answers for an email, if it has one. -/
def recordOf (coll : List Verification) (email : String) : Option Verification :=
  coll.find? (fun v => v.Email == email)

/-- State `VERIFIED`: the store's record for the email has `verified = true`. -/
def Verified (s : State) (email : String) : Prop :=
  ∃ r, recordOf s.verifications email = some r ∧ r.Status = true

/-- The User Directory has a record with that email. -/
def Registered (s : State) (email : String) : Prop :=
  ∃ u ∈ s.users, u.Email = email

/-- Shape of every record the handlers write: a non-empty email and an
issued, positive code. -/
def StoreOk (coll : List Verification) : Prop :=
  ∀ r ∈ coll, r.Email ≠ "" ∧ 0 < r.Otp

/-- One call of the verification workflow with the world it runs in. -/
inductive Call where
  | verifyEmail (w : World) (body : Except String Verification)
  | verifyOtp (w : World) (body : Except String Verification)

/-- Outcome of one call of the verification workflow. -/
def Call.run (k : Constant) (s : State) : Call → Outcome
  | Call.verifyEmail w body => VerifyEmail k w s body
  | Call.verifyOtp w body => VerifyOtp k w s body

/-- State after a sequential execution of calls, each starting from the state
the one before it left. -/
def execute (k : Constant) (s : State) : List Call → State
  | [] => s
  | c :: cs => execute k (c.run k s).state cs

/-! ## Rejecting checks of the verification handlers -/

/-- Names of the rejecting checks of `VerifyEmail` and `VerifyOtp`, after the
six causes the specification lists. -/
inductive Cause where
  | emptyEmail | invalidOtp | alreadySent | alreadyVerified | expired | mismatch
deriving DecidableEq, Repr

/-- The check of the handler that rejects a call, read off the `if`s of
`VerifyEmail` and `VerifyOtp` in the order the source has them: a call that
would fail several checks is counted under the first. It is not the cause
the specification would name in every state: `VerifyEmail` has no check of
`resp.Status`, so a request-verification for an email whose record is
verified gets no check here, whatever the handler answers, and so does every
call that no check rejects. -/
def Call.rejectedBy (k : Constant) (s : State) : Call → Option Cause
  | Call.verifyEmail _ (.error _) => none
  | Call.verifyEmail w (.ok req) =>
    if req.Email = "" then some Cause.emptyEmail
    else
      let resp := GetSingleRecordByEmail s.verifications req.Email
      if resp.Status then none
      else if resp.Otp ≠ 0 ∧ ¬ expirationTime k resp < w.now 0 then some Cause.alreadySent
      else none
  | Call.verifyOtp _ (.error _) => none
  | Call.verifyOtp w (.ok req) =>
    if req.Email = "" then some Cause.emptyEmail
    else if req.Otp ≤ 0 then some Cause.invalidOtp
    else
      let resp := GetSingleRecordByEmail s.verifications req.Email
      if resp.Status then some Cause.alreadyVerified
      else if resp.Otp ≠ req.Otp then some Cause.mismatch
      else if expirationTime k resp < w.now 0 then some Cause.expired
      else none

/-- The message constant the handlers write at each rejecting check. -/
def Cause.reason (k : Constant) : Cause → String
  | Cause.emptyEmail => k.EmailValidationError
  | Cause.invalidOtp => k.OtpValidationError
  | Cause.alreadySent => k.OptAlreadySentError
  | Cause.alreadyVerified => k.AlreadyVerifiedError
  | Cause.expired => k.OtpExpiredValidationError
  | Cause.mismatch => k.OtpValidationError

/-- The five message constants of the verification workflow have pairwise
different values. -/
def Constant.DistinctReasons (k : Constant) : Prop :=
  [k.EmailValidationError, k.OtpValidationError, k.OptAlreadySentError,
   k.AlreadyVerifiedError, k.OtpExpiredValidationError].Nodup

/-! ## Further vocabulary of the specification -/

/-- The reply is an object with a boolean under the key `error` and a string
under the key `message`. -/
def Write.hasErrorAndMessage (wr : Write) : Bool :=
  (match wr.body.lookup "error" with
    | some (JVal.bool _) => true
    | _ => false)
  && (match wr.body.lookup "message" with
    | some (JVal.str _) => true
    | _ => false)

/-- The user collection with the `_id` of each document left out. -/
def directory (coll : List UserDoc) : List User := coll.map (fun d => d.doc)

/-! ## Lemmas on the collection calls -/

theorem wrapInt64_eq_self (x : Int) (hlo : -(2 ^ 63) ≤ x) (hhi : x < 2 ^ 63) :
    wrapInt64 x = x := by
  unfold wrapInt64
  rw [Int.emod_eq_of_lt (by omega) (by omega)]
  omega

theorem expirationTime_eq_add (k : Constant) (r : Verification)
    (hlo : -(2 ^ 63) ≤ r.CreatedAt + k.OtpValidation)
    (hhi : r.CreatedAt + k.OtpValidation < 2 ^ 63) :
    expirationTime k r = r.CreatedAt + k.OtpValidation :=
  wrapInt64_eq_self _ hlo hhi

theorem GetSingleRecordByEmail_eq_of_recordOf {coll : List Verification} {email : String}
    {r : Verification} (h : recordOf coll email = some r) :
    GetSingleRecordByEmail coll email = r := by
  unfold recordOf at h
  simp [GetSingleRecordByEmail, h]

theorem GetSingleRecordByEmail_eq_zero {coll : List Verification} {email : String}
    (h : recordOf coll email = none) :
    GetSingleRecordByEmail coll email = Verification.zero := by
  unfold recordOf at h
  simp [GetSingleRecordByEmail, h]

theorem recordOf_email {coll : List Verification} {email : String} {r : Verification}
    (h : recordOf coll email = some r) : r.Email = email := by
  unfold recordOf at h
  simpa using List.find?_some h

theorem GetSingleRecordByEmail_status_iff (s : State) (email : String) :
    (GetSingleRecordByEmail s.verifications email).Status = true ↔ Verified s email := by
  unfold Verified
  cases h : recordOf s.verifications email with
  | none => simp [GetSingleRecordByEmail_eq_zero h, Verification.zero]
  | some r => simp [GetSingleRecordByEmail_eq_of_recordOf h]

theorem GetSingleRecordByEmailForUser_email_ne (s : State) (email : String)
    (he : email ≠ "") :
    (GetSingleRecordByEmailForUser s.users email).Email ≠ "" ↔ Registered s email := by
  unfold Registered GetSingleRecordByEmailForUser
  cases h : s.users.find? (fun u => u.Email == email) with
  | none =>
    simp only [User.zero, ne_eq, not_true_eq_false, false_iff, not_exists, not_and]
    intro u hu hue
    have := List.find?_eq_none.mp h u hu
    simp [hue] at this
  | some u =>
    have h1 : u.Email = email := by simpa using List.find?_some h
    have h2 : u ∈ s.users := List.mem_of_find?_eq_some h
    simp only [ne_eq, h1, he, not_false_eq_true, true_iff]
    exact ⟨u, h2, h1⟩

theorem recordOf_setFirst (data : Verification) (coll : List Verification)
    {r : Verification} (h : recordOf coll data.Email = some r) :
    recordOf (setFirst data coll) data.Email = some data := by
  induction coll with
  | nil => simp [recordOf] at h
  | cons v vs ih =>
    unfold recordOf at h ih ⊢
    by_cases hv : v.Email = data.Email
    · simp [setFirst, hv]
    · have hb : (v.Email == data.Email) = false := by simpa using hv
      rw [List.find?_cons, hb] at h
      simp [setFirst, hv, ih h]

theorem length_setFirst (data : Verification) (coll : List Verification) :
    (setFirst data coll).length = coll.length := by
  induction coll with
  | nil => rfl
  | cons v vs ih =>
    by_cases hv : v.Email = data.Email <;> simp [setFirst, hv, ih]

/-! ## Records the handlers write -/

theorem Randomnum_range (draw : Nat) : 1000 ≤ Randomnum draw ∧ Randomnum draw ≤ 1999 := by
  unfold Randomnum
  have := Nat.mod_lt draw (by decide : 0 < 1000)
  omega

theorem StoreOk_setFirst (data : Verification) (coll : List Verification)
    (hd : data.Email ≠ "" ∧ 0 < data.Otp) (h : StoreOk coll) :
    StoreOk (setFirst data coll) := by
  induction coll with
  | nil => exact h
  | cons v vs ih =>
    have hv := h v (List.mem_cons_self v vs)
    have hvs : StoreOk vs := fun r hr => h r (List.mem_cons_of_mem v hr)
    intro r hr
    by_cases hb : v.Email = data.Email
    · have hs : setFirst data (v :: vs) = data :: vs := by simp [setFirst, hb]
      rw [hs, List.mem_cons] at hr
      rcases hr with hr | hr
      · rw [hr]
        exact hd
      · exact hvs r hr
    · have hs : setFirst data (v :: vs) = v :: setFirst data vs := by simp [setFirst, hb]
      rw [hs, List.mem_cons] at hr
      rcases hr with hr | hr
      · rw [hr]
        exact hv
      · exact ih hvs r hr

theorem StoreOk_append (data : Verification) (coll : List Verification)
    (hd : data.Email ≠ "" ∧ 0 < data.Otp) (h : StoreOk coll) :
    StoreOk (coll ++ [data]) := by
  intro r hr
  rcases List.mem_append.mp hr with hr | hr
  · exact h r hr
  · rw [List.mem_singleton.mp hr]
    exact hd

/-- From the empty store on, every record `VerifyEmail` leaves in the store
has a non-empty email and a positive code. -/
theorem VerifyEmail_StoreOk (k : Constant) (w : World) (s : State)
    (body : Except String Verification) (h : StoreOk s.verifications) :
    StoreOk (VerifyEmail k w s body).state.verifications := by
  have hr := Randomnum_range w.draw
  cases body with
  | error e => exact h
  | ok req =>
    by_cases hE : req.Email = ""
    · simpa [VerifyEmail, hE] using h
    have hd : ∀ t : Int, (⟨req.Email, Randomnum w.draw, req.Status, t⟩ : Verification).Email ≠ ""
        ∧ 0 < (⟨req.Email, Randomnum w.draw, req.Status, t⟩ : Verification).Otp :=
      fun t => ⟨hE, by show 0 < Randomnum w.draw; omega⟩
    by_cases hkey : w.apiKey = ""
    · by_cases hO : (GetSingleRecordByEmail s.verifications req.Email).Otp = 0
      · simpa [VerifyEmail, hE, hO, SendEmailSendGrid, hkey] using h
      · by_cases hx : expirationTime k (GetSingleRecordByEmail s.verifications req.Email)
            < w.now 0
        · simpa [VerifyEmail, hE, hO, hx, SendEmailSendGrid, hkey] using h
        · simpa [VerifyEmail, hE, hO, hx] using h
    cases hsend : w.sendErr with
    | some e =>
      by_cases hO : (GetSingleRecordByEmail s.verifications req.Email).Otp = 0
      · simpa [VerifyEmail, hE, hO, SendEmailSendGrid, hkey, hsend] using h
      · by_cases hx : expirationTime k (GetSingleRecordByEmail s.verifications req.Email)
            < w.now 0
        · simpa [VerifyEmail, hE, hO, hx, SendEmailSendGrid, hkey, hsend] using h
        · simpa [VerifyEmail, hE, hO, hx] using h
    | none =>
      by_cases hO : (GetSingleRecordByEmail s.verifications req.Email).Otp = 0
      · cases hins : w.insertErr with
        | some e => simpa [VerifyEmail, hE, hO, SendEmailSendGrid, hkey, hsend, Insert, hins]
            using h
        | none =>
          have := StoreOk_append _ _ (hd (w.now 0)) h
          simpa [VerifyEmail, hE, hO, SendEmailSendGrid, hkey, hsend, Insert, hins] using this
      · by_cases hx : expirationTime k (GetSingleRecordByEmail s.verifications req.Email)
            < w.now 0
        · cases hupd : w.updateErr with
          | some e => simpa [VerifyEmail, hE, hO, hx, SendEmailSendGrid, hkey, hsend,
              UpdateVerification, hupd] using h
          | none =>
            have := StoreOk_setFirst _ _ (hd (w.now 1)) h
            simpa [VerifyEmail, hE, hO, hx, SendEmailSendGrid, hkey, hsend,
              UpdateVerification, hupd] using this
        · simpa [VerifyEmail, hE, hO, hx] using h

/-- From the empty store on, every record `VerifyOtp` leaves in the store has
a non-empty email and a positive code. -/
theorem VerifyOtp_StoreOk (k : Constant) (w : World) (s : State)
    (body : Except String Verification) (h : StoreOk s.verifications) :
    StoreOk (VerifyOtp k w s body).state.verifications := by
  cases body with
  | error e => exact h
  | ok req =>
    by_cases hE : req.Email = ""
    · simpa [VerifyOtp, hE] using h
    by_cases hp : req.Otp ≤ 0
    · simpa [VerifyOtp, hE, hp] using h
    by_cases hs : (GetSingleRecordByEmail s.verifications req.Email).Status = true
    · simpa [VerifyOtp, hE, hp, hs] using h
    by_cases hm : (GetSingleRecordByEmail s.verifications req.Email).Otp = req.Otp
    swap
    · simpa [VerifyOtp, hE, hp, hs, hm] using h
    by_cases hx : expirationTime k (GetSingleRecordByEmail s.verifications req.Email)
        < w.now 0
    · simpa [VerifyOtp, hE, hp, hs, hm, hx] using h
    cases hupd : w.updateErr with
    | some e =>
      simpa [VerifyOtp, hE, hp, hs, hm, hx, UpdateEmailVerifiedStatus, hupd] using h
    | none =>
      have := StoreOk_setFirst ⟨req.Email, req.Otp, true, w.now 1⟩ s.verifications
        ⟨hE, by show 0 < req.Otp; omega⟩ h
      simpa [VerifyOtp, hE, hp, hs, hm, hx, UpdateEmailVerifiedStatus, hupd] using this

/-- Handler `RegisterUser` never writes to the verification store. -/
theorem RegisterUser_verifications (k : Constant) (w : World) (s : State)
    (body : Except String UserClient) :
    (RegisterUser k w s body).state.verifications = s.verifications := by
  unfold RegisterUser
  dsimp only
  repeat' split
  all_goals rfl

/-! ## Request-verification on a verified email -/

/-- C1 (the code departs from the claim). The address `a@x.com` requests a
code at second 1000, submits it at second 1600 and is `VERIFIED`. A further
`VerifyEmail` for it inside the window is answered "OTP already sent", not
"already verified"; a further `VerifyEmail` after the window answers
`error = false`, mails a fresh code and rewrites the record with
`verified = false`. `VerifyEmail` never reads `resp.Status`. -/
theorem VerifyEmail_verified_not_sealed :
    (VerifyOtp specConstant (healthyWorld 1600 0)
        (VerifyEmail specConstant (healthyWorld 1000 234) ⟨[], []⟩
          (emailBody "a@x.com")).state
        (otpBody "a@x.com" 1234)).state
      = ⟨[⟨"a@x.com", 1234, true, 1600⟩], []⟩
    ∧ VerifyEmail specConstant (healthyWorld 1700 777)
        ⟨[⟨"a@x.com", 1234, true, 1600⟩], []⟩ (emailBody "a@x.com")
      = ⟨⟨[⟨"a@x.com", 1234, true, 1600⟩], []⟩,
         Reply.msg 400 true "OTP already sent", []⟩
    ∧ VerifyEmail specConstant (healthyWorld 90000 777)
        ⟨[⟨"a@x.com", 1234, true, 1600⟩], []⟩ (emailBody "a@x.com")
      = ⟨⟨[⟨"a@x.com", 1777, false, 90000⟩], []⟩,
         Reply.msg 200 false "OTP sent successfully", [⟨"a@x.com", 1777⟩]⟩ := by
  refine ⟨?_, ?_, ?_⟩ <;> decide

/-! ## First request-verification with a body that carries `status` -/

/-- C2 (the code departs from the claim). With an empty store, the body
`{"email": "a@x.com", "status": true}` and a successful dispatch,
`VerifyEmail` inserts the bound request as it is: the stored record has
`verified = true`, and `RegisterUser` then accepts the address without any
code having been submitted. -/
theorem VerifyEmail_stores_body_status :
    VerifyEmail specConstant (healthyWorld 1000 234) ⟨[], []⟩
        (.ok ⟨"a@x.com", 0, true, 0⟩)
      = ⟨⟨[⟨"a@x.com", 1234, true, 1000⟩], []⟩,
         Reply.msg 200 false "OTP sent successfully", [⟨"a@x.com", 1234⟩]⟩
    ∧ (RegisterUser specConstant (healthyWorld 1001 0)
        ⟨[⟨"a@x.com", 1234, true, 1000⟩], []⟩
        (.ok ⟨"A", "a@x.com", "555", "pw"⟩)).state.users
      = [⟨"A", "a@x.com", "555", "$2a$04$pw", "normal", 1001, 1001⟩] := by
  refine ⟨?_, ?_⟩ <;> decide

/-! ## Registration -/

theorem CheckUserValidation_eq_none (u : UserClient) (hE : u.Email ≠ "")
    (hN : u.Name ≠ "") (hPh : u.Phone ≠ "") (hPw : u.Password ≠ "") :
    CheckUserValidation u = none := by
  simp [CheckUserValidation, hE, hN, hPh, hPw]

/-- C3. For a registration request with all four fields non-empty:
`RegisterUser` changes the User Directory only if the email is `VERIFIED` and
not yet registered; when the email is not `VERIFIED` it answers "email not
verified", when it is `VERIFIED` and registered it answers "already
registered", and in both cases it leaves the whole state unchanged. -/
theorem RegisterUser_gate (k : Constant) (w : World) (s : State) (u : UserClient)
    (hE : u.Email ≠ "") (hN : u.Name ≠ "") (hPh : u.Phone ≠ "") (hPw : u.Password ≠ "") :
    ((RegisterUser k w s (.ok u)).state.users ≠ s.users →
        Verified s u.Email ∧ ¬ Registered s u.Email)
    ∧ (¬ Verified s u.Email →
        RegisterUser k w s (.ok u) = ⟨s, Reply.msg 400 true k.EmailIsNotVerified, []⟩)
    ∧ (Verified s u.Email → Registered s u.Email →
        RegisterUser k w s (.ok u)
          = ⟨s, Reply.msg 400 true k.AlreadyRegisterWithThisEmail, []⟩) := by
  have hval := CheckUserValidation_eq_none u hE hN hPh hPw
  have hst := GetSingleRecordByEmail_status_iff s u.Email
  have hus := GetSingleRecordByEmailForUser_email_ne s u.Email hE
  have hnot : ¬ Verified s u.Email →
      RegisterUser k w s (.ok u) = ⟨s, Reply.msg 400 true k.EmailIsNotVerified, []⟩ := by
    intro hV
    have h1 : (GetSingleRecordByEmail s.verifications u.Email).Status = false := by
      cases hb : (GetSingleRecordByEmail s.verifications u.Email).Status with
      | false => rfl
      | true => exact absurd (hst.mp hb) hV
    simp [RegisterUser, hval, h1]
  have hreg : Verified s u.Email → Registered s u.Email →
      RegisterUser k w s (.ok u)
        = ⟨s, Reply.msg 400 true k.AlreadyRegisterWithThisEmail, []⟩ := by
    intro hV hR
    have h1 := hst.mpr hV
    have h2 := hus.mpr hR
    simp only [ne_eq] at h2
    simp [RegisterUser, hval, h1, h2]
  refine ⟨?_, hnot, hreg⟩
  intro hch
  by_cases hV : Verified s u.Email
  · refine ⟨hV, fun hR => hch ?_⟩
    rw [hreg hV hR]
  · exact absurd (by rw [hnot hV]) hch

/-- Witness for C3 (`RegisterUser_gate`) on a request whose email has no
verification record. -/
theorem RegisterUser_gate_witness :
    ((RegisterUser specConstant (healthyWorld 5 0) ⟨[], []⟩
          (.ok ⟨"A", "a@x.com", "555", "pw"⟩)).state.users ≠ [] →
        Verified ⟨[], []⟩ "a@x.com" ∧ ¬ Registered ⟨[], []⟩ "a@x.com")
    ∧ (¬ Verified ⟨[], []⟩ "a@x.com" →
        RegisterUser specConstant (healthyWorld 5 0) ⟨[], []⟩
            (.ok ⟨"A", "a@x.com", "555", "pw"⟩)
          = ⟨⟨[], []⟩, Reply.msg 400 true "email not verified", []⟩)
    ∧ (Verified ⟨[], []⟩ "a@x.com" → Registered ⟨[], []⟩ "a@x.com" →
        RegisterUser specConstant (healthyWorld 5 0) ⟨[], []⟩
            (.ok ⟨"A", "a@x.com", "555", "pw"⟩)
          = ⟨⟨[], []⟩, Reply.msg 400 true "already registered", []⟩) :=
  RegisterUser_gate specConstant (healthyWorld 5 0) ⟨[], []⟩ ⟨"A", "a@x.com", "555", "pw"⟩
    (by decide) (by decide) (by decide) (by decide)

/-- C4. A registration with valid fields, a `VERIFIED` email and no existing
user, whose insert and token signing succeed, appends exactly one record to
the User Directory: email, name and phone are the request's, the role is
`constant.NormalUser`, the password is `GenPassHash` of the request's password;
the reply has `error = false` and its `data` is that record. -/
theorem RegisterUser_success (k : Constant) (w : World) (s : State) (u : UserClient)
    (tok : String)
    (hE : u.Email ≠ "") (hN : u.Name ≠ "") (hPh : u.Phone ≠ "") (hPw : u.Password ≠ "")
    (hV : Verified s u.Email) (hR : ¬ Registered s u.Email)
    (hins : w.insertErr = none)
    (htok : w.GenrateToken u.Email k.NormalUser = .ok tok) :
    ∃ rec : User,
      rec.Email = u.Email ∧ rec.Name = u.Name ∧ rec.Phone = u.Phone
      ∧ rec.UserType = k.NormalUser ∧ rec.Password = GenPassHash w u.Password
      ∧ (RegisterUser k w s (.ok u)).state
          = { verifications := s.verifications, users := s.users ++ [rec] }
      ∧ (RegisterUser k w s (.ok u)).reply
          = Reply.json { status := 200, error := false,
                         message := "Registration successful",
                         data := some rec, token := some tok } := by
  have hval := CheckUserValidation_eq_none u hE hN hPh hPw
  have h1 := (GetSingleRecordByEmail_status_iff s u.Email).mpr hV
  have h2 : (GetSingleRecordByEmailForUser s.users u.Email).Email = "" := by
    by_contra hne
    exact hR ((GetSingleRecordByEmailForUser_email_ne s u.Email hE).mp hne)
  refine ⟨{ Email := u.Email, Name := u.Name, Phone := u.Phone, UserType := k.NormalUser,
            Password := GenPassHash w u.Password, CreatedAt := w.now 0,
            UpdatedAt := w.now 1 }, rfl, rfl, rfl, rfl, rfl, ?_, ?_⟩ <;>
    simp [RegisterUser, hval, h1, h2, Insert, hins, htok]

/-- Witness for C4 (`RegisterUser_success`): the spec scenario, `a@x.com`
verified and registering with name `A`, phone `555`, password `pw`. -/
theorem RegisterUser_success_witness :
    ∃ rec : User,
      rec.Email = "a@x.com" ∧ rec.Name = "A" ∧ rec.Phone = "555"
      ∧ rec.UserType = "normal"
      ∧ rec.Password = GenPassHash (healthyWorld 1700 0) "pw"
      ∧ (RegisterUser specConstant (healthyWorld 1700 0)
            ⟨[⟨"a@x.com", 1234, true, 1600⟩], []⟩
            (.ok ⟨"A", "a@x.com", "555", "pw"⟩)).state
          = { verifications := [⟨"a@x.com", 1234, true, 1600⟩], users := [] ++ [rec] }
      ∧ (RegisterUser specConstant (healthyWorld 1700 0)
            ⟨[⟨"a@x.com", 1234, true, 1600⟩], []⟩
            (.ok ⟨"A", "a@x.com", "555", "pw"⟩)).reply
          = Reply.json { status := 200, error := false,
                         message := "Registration successful",
                         data := some rec, token := some "jwt:a@x.com:normal" } :=
  RegisterUser_success specConstant (healthyWorld 1700 0)
    ⟨[⟨"a@x.com", 1234, true, 1600⟩], []⟩ ⟨"A", "a@x.com", "555", "pw"⟩
    "jwt:a@x.com:normal"
    (by decide) (by decide) (by decide) (by decide)
    ⟨⟨"a@x.com", 1234, true, 1600⟩, by decide, rfl⟩
    (by simp [Registered]) rfl rfl

/-! ## Submitting a code -/

/-- C5. Let the store's record `r` for the request's email be unverified with
a positive stored code, let the submitted code equal the stored code, let the
clock reading compared with the window satisfy `now 0 ≤ CreatedAt + window`
(the sum as the handler computes it), and let the store update succeed. Then
`VerifyOtp` answers `error = false`, "Email verified successfully", and the
record of that email becomes verified with the clock reading taken for the
stamp as its timestamp. -/
theorem VerifyOtp_success (k : Constant) (w : World) (s : State)
    (req r : Verification)
    (hE : req.Email ≠ "")
    (hrec : recordOf s.verifications req.Email = some r)
    (hS : r.Status = false) (hotp : r.Otp = req.Otp) (hpos : 0 < r.Otp)
    (ht : w.now 0 ≤ expirationTime k r)
    (hupd : w.updateErr = none) :
    (VerifyOtp k w s (.ok req)).reply = Reply.msg 200 false "Email verified successfully"
    ∧ recordOf (VerifyOtp k w s (.ok req)).state.verifications req.Email
        = some { Email := req.Email, Otp := r.Otp, Status := true, CreatedAt := w.now 1 }
    ∧ Verified (VerifyOtp k w s (.ok req)).state req.Email
    ∧ (VerifyOtp k w s (.ok req)).state.verifications.length = s.verifications.length
    ∧ (VerifyOtp k w s (.ok req)).state.users = s.users := by
  have hget := GetSingleRecordByEmail_eq_of_recordOf hrec
  have hpos2 : ¬ req.Otp ≤ 0 := by omega
  have hnexp : ¬ expirationTime k r < w.now 0 := by omega
  have hout : VerifyOtp k w s (.ok req)
      = ⟨{ s with verifications :=
            setFirst { req with Status := true, CreatedAt := w.now 1 } s.verifications },
         Reply.msg 200 false "Email verified successfully", []⟩ := by
    simp [VerifyOtp, hE, hpos2, hget, hS, hotp, hnexp, UpdateEmailVerifiedStatus, hupd]
  have hnew := recordOf_setFirst { req with Status := true, CreatedAt := w.now 1 }
    s.verifications hrec
  rw [hout]
  refine ⟨rfl, ?_, ⟨_, hnew, rfl⟩, length_setFirst _ _, rfl⟩
  simpa [hotp] using hnew

/-- Witness for C5 (`VerifyOtp_success`): the spec scenario, code `1234`
recorded at second 1000 and submitted ten minutes later, window 24 hours. -/
theorem VerifyOtp_success_witness :
    (VerifyOtp specConstant (healthyWorld 1600 0) ⟨[⟨"a@x.com", 1234, false, 1000⟩], []⟩
        (.ok ⟨"a@x.com", 1234, false, 0⟩)).reply
      = Reply.msg 200 false "Email verified successfully"
    ∧ recordOf (VerifyOtp specConstant (healthyWorld 1600 0)
        ⟨[⟨"a@x.com", 1234, false, 1000⟩], []⟩
        (.ok ⟨"a@x.com", 1234, false, 0⟩)).state.verifications "a@x.com"
        = some { Email := "a@x.com", Otp := 1234, Status := true, CreatedAt := 1600 }
    ∧ Verified (VerifyOtp specConstant (healthyWorld 1600 0)
        ⟨[⟨"a@x.com", 1234, false, 1000⟩], []⟩
        (.ok ⟨"a@x.com", 1234, false, 0⟩)).state "a@x.com"
    ∧ (VerifyOtp specConstant (healthyWorld 1600 0) ⟨[⟨"a@x.com", 1234, false, 1000⟩], []⟩
        (.ok ⟨"a@x.com", 1234, false, 0⟩)).state.verifications.length = 1
    ∧ (VerifyOtp specConstant (healthyWorld 1600 0) ⟨[⟨"a@x.com", 1234, false, 1000⟩], []⟩
        (.ok ⟨"a@x.com", 1234, false, 0⟩)).state.users = [] :=
  VerifyOtp_success specConstant (healthyWorld 1600 0)
    ⟨[⟨"a@x.com", 1234, false, 1000⟩], []⟩ ⟨"a@x.com", 1234, false, 0⟩
    ⟨"a@x.com", 1234, false, 1000⟩
    (by decide) (by decide) rfl rfl (by decide) (by decide) rfl

/-- C6 as stated fails: on the verified address `a@x.com` a submission with
code `0`, and one with code `-5`, are answered with the OTP-validation error,
which is not the "already verified" error. -/
theorem VerifyOtp_verified_nonpositive_counterexample :
    (VerifyOtp specConstant (healthyWorld 1700 0) ⟨[⟨"a@x.com", 1234, true, 1600⟩], []⟩
        (otpBody "a@x.com" 0)).reply
      = Reply.msg 400 true specConstant.OtpValidationError
    ∧ (VerifyOtp specConstant (healthyWorld 1700 0) ⟨[⟨"a@x.com", 1234, true, 1600⟩], []⟩
        (otpBody "a@x.com" (-5))).reply
      = Reply.msg 400 true specConstant.OtpValidationError
    ∧ Reply.msg 400 true specConstant.OtpValidationError
      ≠ Reply.msg 400 true specConstant.AlreadyVerifiedError := by
  refine ⟨?_, ?_, ?_⟩ <;> decide

/-- C6, amended. After an email has been verified, a further submit-otp for
it is rejected and changes nothing: with the "already verified" error when
the submitted code is positive (matching or not), and with the
OTP-validation error when the submitted code is zero or negative, a check
that runs before the record is read. -/
theorem VerifyOtp_on_verified (k : Constant) (w : World) (s : State) (req : Verification)
    (hE : req.Email ≠ "") (hV : Verified s req.Email) :
    VerifyOtp k w s (.ok req)
      = ⟨s, Reply.msg 400 true
            (if req.Otp ≤ 0 then k.OtpValidationError else k.AlreadyVerifiedError), []⟩ := by
  have h1 := (GetSingleRecordByEmail_status_iff s req.Email).mpr hV
  by_cases hp : req.Otp ≤ 0 <;> simp [VerifyOtp, hE, hp, h1]

/-- Witness for C6 amended (`VerifyOtp_on_verified`): a wrong positive code
on the verified address `a@x.com`. -/
theorem VerifyOtp_on_verified_witness :
    VerifyOtp specConstant (healthyWorld 1700 0) ⟨[⟨"a@x.com", 1234, true, 1600⟩], []⟩
        (.ok ⟨"a@x.com", 4321, false, 0⟩)
      = ⟨⟨[⟨"a@x.com", 1234, true, 1600⟩], []⟩, Reply.msg 400 true
            (if (4321 : Int) ≤ 0 then specConstant.OtpValidationError
             else specConstant.AlreadyVerifiedError), []⟩ :=
  VerifyOtp_on_verified specConstant (healthyWorld 1700 0)
    ⟨[⟨"a@x.com", 1234, true, 1600⟩], []⟩ ⟨"a@x.com", 4321, false, 0⟩
    (by decide) ⟨⟨"a@x.com", 1234, true, 1600⟩, by decide, rfl⟩

/-- C7. When the submitted code differs from the stored code of the email's
record, or the email has no record, `VerifyOtp` rejects the request with
`error = true` and the whole state after the call equals the state before;
the reason is one of the empty-email, OTP-validation and already-verified
errors. -/
theorem VerifyOtp_mismatch_frame (k : Constant) (w : World) (s : State) (req : Verification)
    (hne : ∀ r, recordOf s.verifications req.Email = some r → r.Otp ≠ req.Otp) :
    (VerifyOtp k w s (.ok req)).state = s
    ∧ (VerifyOtp k w s (.ok req)).mails = []
    ∧ ∃ m, m ∈ [k.EmailValidationError, k.OtpValidationError, k.AlreadyVerifiedError]
        ∧ (VerifyOtp k w s (.ok req)).reply = Reply.msg 400 true m := by
  by_cases hE : req.Email = ""
  · exact ⟨by simp [VerifyOtp, hE], by simp [VerifyOtp, hE],
      k.EmailValidationError, by simp, by simp [VerifyOtp, hE]⟩
  by_cases hp : req.Otp ≤ 0
  · exact ⟨by simp [VerifyOtp, hE, hp], by simp [VerifyOtp, hE, hp],
      k.OtpValidationError, by simp, by simp [VerifyOtp, hE, hp]⟩
  by_cases hs : (GetSingleRecordByEmail s.verifications req.Email).Status = true
  · exact ⟨by simp [VerifyOtp, hE, hp, hs], by simp [VerifyOtp, hE, hp, hs],
      k.AlreadyVerifiedError, by simp, by simp [VerifyOtp, hE, hp, hs]⟩
  have hdiff : (GetSingleRecordByEmail s.verifications req.Email).Otp ≠ req.Otp := by
    cases h : recordOf s.verifications req.Email with
    | none =>
      rw [GetSingleRecordByEmail_eq_zero h]
      simp only [Verification.zero]
      omega
    | some r =>
      rw [GetSingleRecordByEmail_eq_of_recordOf h]
      exact hne r h
  exact ⟨by simp [VerifyOtp, hE, hp, hs, hdiff], by simp [VerifyOtp, hE, hp, hs, hdiff],
    k.OtpValidationError, by simp, by simp [VerifyOtp, hE, hp, hs, hdiff]⟩

/-- Witness for C7 (`VerifyOtp_mismatch_frame`): code `9999` against the
stored code `1234`. -/
theorem VerifyOtp_mismatch_frame_witness :
    (VerifyOtp specConstant (healthyWorld 1600 0) ⟨[⟨"a@x.com", 1234, false, 1000⟩], []⟩
        (.ok ⟨"a@x.com", 9999, false, 0⟩)).state = ⟨[⟨"a@x.com", 1234, false, 1000⟩], []⟩
    ∧ (VerifyOtp specConstant (healthyWorld 1600 0) ⟨[⟨"a@x.com", 1234, false, 1000⟩], []⟩
        (.ok ⟨"a@x.com", 9999, false, 0⟩)).mails = []
    ∧ ∃ m, m ∈ [specConstant.EmailValidationError, specConstant.OtpValidationError,
                specConstant.AlreadyVerifiedError]
        ∧ (VerifyOtp specConstant (healthyWorld 1600 0)
            ⟨[⟨"a@x.com", 1234, false, 1000⟩], []⟩
            (.ok ⟨"a@x.com", 9999, false, 0⟩)).reply = Reply.msg 400 true m :=
  VerifyOtp_mismatch_frame specConstant (healthyWorld 1600 0)
    ⟨[⟨"a@x.com", 1234, false, 1000⟩], []⟩ ⟨"a@x.com", 9999, false, 0⟩
    (by
      intro r hr
      have h : r = ⟨"a@x.com", 1234, false, 1000⟩ := by
        have h0 : recordOf [(⟨"a@x.com", 1234, false, 1000⟩ : Verification)] "a@x.com"
            = some ⟨"a@x.com", 1234, false, 1000⟩ := by decide
        exact (Option.some.inj (h0.symm.trans hr)).symm
      rw [h]
      decide)

/-- C8 as stated fails: the unverified record of `a@x.com` was issued at
second 1000 and the clock reads 90000, past the 24 hour window; a submission
with the non-matching code `9999` is answered with the OTP-validation error,
which is not the "expired" error. -/
theorem VerifyOtp_expired_mismatch_counterexample :
    expirationTime specConstant ⟨"a@x.com", 1234, false, 1000⟩ < 90000
    ∧ (VerifyOtp specConstant (healthyWorld 90000 0)
        ⟨[⟨"a@x.com", 1234, false, 1000⟩], []⟩ (otpBody "a@x.com" 9999)).reply
      = Reply.msg 400 true specConstant.OtpValidationError
    ∧ Reply.msg 400 true specConstant.OtpValidationError
      ≠ Reply.msg 400 true specConstant.OtpExpiredValidationError := by
  refine ⟨?_, ?_, ?_⟩ <;> decide

/-- C8, amended. For an unverified record whose validity window has elapsed
(`now 0 > CreatedAt + window`, the sum as the handler computes it),
`VerifyOtp` rejects every submission and changes nothing: with the "expired"
error when the submitted code is positive and equals the stored code, with
the OTP-validation error otherwise, the code being compared before the
window is. -/
theorem VerifyOtp_expired (k : Constant) (w : World) (s : State) (req r : Verification)
    (hE : req.Email ≠ "")
    (hrec : recordOf s.verifications req.Email = some r)
    (hS : r.Status = false)
    (hexp : expirationTime k r < w.now 0) :
    VerifyOtp k w s (.ok req)
      = ⟨s, Reply.msg 400 true
            (if 0 < req.Otp ∧ r.Otp = req.Otp then k.OtpExpiredValidationError
             else k.OtpValidationError), []⟩ := by
  have hget := GetSingleRecordByEmail_eq_of_recordOf hrec
  by_cases hp : req.Otp ≤ 0
  · have hp2 : ¬ 0 < req.Otp := by omega
    simp [VerifyOtp, hE, hp, hp2]
  · have hp2 : 0 < req.Otp := by omega
    by_cases hm : r.Otp = req.Otp <;>
      simp [VerifyOtp, hE, hp, hp2, hget, hS, hm, hexp]

/-- Witness for C8 amended (`VerifyOtp_expired`): the matching code `1234`
submitted at second 90000 for a record issued at second 1000. -/
theorem VerifyOtp_expired_witness :
    VerifyOtp specConstant (healthyWorld 90000 0) ⟨[⟨"a@x.com", 1234, false, 1000⟩], []⟩
        (.ok ⟨"a@x.com", 1234, false, 0⟩)
      = ⟨⟨[⟨"a@x.com", 1234, false, 1000⟩], []⟩, Reply.msg 400 true
            (if (0 : Int) < 1234 ∧ (1234 : Int) = 1234
             then specConstant.OtpExpiredValidationError
             else specConstant.OtpValidationError), []⟩ :=
  VerifyOtp_expired specConstant (healthyWorld 90000 0)
    ⟨[⟨"a@x.com", 1234, false, 1000⟩], []⟩ ⟨"a@x.com", 1234, false, 0⟩
    ⟨"a@x.com", 1234, false, 1000⟩ (by decide) (by decide) rfl (by decide)

/-! ## Requesting a code again -/

/-- C9. Let the store's record `r` for the request's email be unverified with
an issued code (`Otp ≠ 0`), and let the clock reading satisfy
`now 0 ≤ CreatedAt + window` (the sum as the handler computes it). Then
`VerifyEmail` answers the "OTP already sent" error, hands no message to the
mail client and leaves the whole state, so the record's code and timestamp,
unchanged. -/
theorem VerifyEmail_already_sent (k : Constant) (w : World) (s : State)
    (req r : Verification)
    (hE : req.Email ≠ "")
    (hrec : recordOf s.verifications req.Email = some r)
    (_hS : r.Status = false) (hO : r.Otp ≠ 0)
    (ht : w.now 0 ≤ expirationTime k r) :
    VerifyEmail k w s (.ok req) = ⟨s, Reply.msg 400 true k.OptAlreadySentError, []⟩
    ∧ recordOf (VerifyEmail k w s (.ok req)).state.verifications req.Email = some r := by
  have hget := GetSingleRecordByEmail_eq_of_recordOf hrec
  have hnexp : ¬ expirationTime k r < w.now 0 := by omega
  have hout : VerifyEmail k w s (.ok req)
      = ⟨s, Reply.msg 400 true k.OptAlreadySentError, []⟩ := by
    simp [VerifyEmail, hE, hget, hO, hnexp]
  exact ⟨hout, by rw [hout]; exact hrec⟩

/-- Witness for C9 (`VerifyEmail_already_sent`): a second request ten minutes
after the code `1234` was issued at second 1000. -/
theorem VerifyEmail_already_sent_witness :
    VerifyEmail specConstant (healthyWorld 1600 777) ⟨[⟨"a@x.com", 1234, false, 1000⟩], []⟩
        (.ok ⟨"a@x.com", 0, false, 0⟩)
      = ⟨⟨[⟨"a@x.com", 1234, false, 1000⟩], []⟩,
         Reply.msg 400 true specConstant.OptAlreadySentError, []⟩
    ∧ recordOf (VerifyEmail specConstant (healthyWorld 1600 777)
        ⟨[⟨"a@x.com", 1234, false, 1000⟩], []⟩
        (.ok ⟨"a@x.com", 0, false, 0⟩)).state.verifications "a@x.com"
      = some ⟨"a@x.com", 1234, false, 1000⟩ :=
  VerifyEmail_already_sent specConstant (healthyWorld 1600 777)
    ⟨[⟨"a@x.com", 1234, false, 1000⟩], []⟩ ⟨"a@x.com", 0, false, 0⟩
    ⟨"a@x.com", 1234, false, 1000⟩ (by decide) (by decide) rfl (by decide) (by decide)

/-- What `VerifyEmail` does with an issued record after its window, when the
dispatch and the store update succeed: the record of the email is rewritten
with the fresh code, the second clock reading and the `Status` of the
request body. -/
theorem VerifyEmail_resend (k : Constant) (w : World) (s : State) (req r : Verification)
    (hE : req.Email ≠ "")
    (hrec : recordOf s.verifications req.Email = some r)
    (hO : r.Otp ≠ 0)
    (hexp : expirationTime k r < w.now 0)
    (hkey : w.apiKey ≠ "") (hsend : w.sendErr = none) (hupd : w.updateErr = none) :
    VerifyEmail k w s (.ok req)
      = ⟨{ s with verifications :=
            setFirst ⟨req.Email, Randomnum w.draw, req.Status, w.now 1⟩ s.verifications },
         Reply.msg 200 false "OTP sent successfully",
         [⟨req.Email, Randomnum w.draw⟩]⟩
    ∧ recordOf (VerifyEmail k w s (.ok req)).state.verifications req.Email
        = some ⟨req.Email, Randomnum w.draw, req.Status, w.now 1⟩
    ∧ (VerifyEmail k w s (.ok req)).state.verifications.length
        = s.verifications.length := by
  have hget := GetSingleRecordByEmail_eq_of_recordOf hrec
  have hout : VerifyEmail k w s (.ok req)
      = ⟨{ s with verifications :=
            setFirst ⟨req.Email, Randomnum w.draw, req.Status, w.now 1⟩ s.verifications },
         Reply.msg 200 false "OTP sent successfully",
         [⟨req.Email, Randomnum w.draw⟩]⟩ := by
    simp [VerifyEmail, hE, hget, hO, hexp, SendEmailSendGrid, hkey, hsend,
      UpdateVerification, hupd]
  have hnew := recordOf_setFirst ⟨req.Email, Randomnum w.draw, req.Status, w.now 1⟩
    s.verifications hrec
  rw [hout]
  exact ⟨rfl, hnew, length_setFirst _ _⟩

/-- C10 (the code departs from the claim). The unverified record of `a@x.com`
was issued at second 1000; at second 90000, past the 24 hour window, a
request with body `{"email": "a@x.com", "status": true}` whose dispatch
succeeds is answered `error = false` and the record is rewritten from the
bound request: fresh code, new timestamp, and `verified = true`. -/
theorem VerifyEmail_resend_stores_body_status :
    expirationTime specConstant ⟨"a@x.com", 1234, false, 1000⟩ < 90000
    ∧ VerifyEmail specConstant (healthyWorld 90000 777)
        ⟨[⟨"a@x.com", 1234, false, 1000⟩], []⟩ (.ok ⟨"a@x.com", 0, true, 0⟩)
      = ⟨⟨[⟨"a@x.com", 1777, true, 90000⟩], []⟩,
         Reply.msg 200 false "OTP sent successfully", [⟨"a@x.com", 1777⟩]⟩ := by
  refine ⟨?_, ?_⟩ <;> decide

/-! ## First request-verification -/

theorem filter_email_eq_nil {coll : List Verification} {email : String}
    (h : recordOf coll email = none) :
    coll.filter (fun v => v.Email == email) = [] := by
  unfold recordOf at h
  rw [List.filter_eq_nil_iff]
  intro v hv
  exact List.find?_eq_none.mp h v hv

/-- What `VerifyEmail` does for a request with a non-empty email that has no
verification record when the dispatch succeeds and the store accepts the
insert: it appends one record, the only one of that email; its code is
`Randomnum` of the random draw, which lies in `[1000, 1999]` whatever the
draw, and its timestamp is the clock reading of the call. -/
theorem VerifyEmail_first_issue (k : Constant) (w : World) (s : State) (req : Verification)
    (hE : req.Email ≠ "")
    (hnone : recordOf s.verifications req.Email = none)
    (hkey : w.apiKey ≠ "") (hsend : w.sendErr = none)
    (hins : w.insertErr = none) :
    (VerifyEmail k w s (.ok req)).state.verifications
        = s.verifications
          ++ [{ Email := req.Email, Otp := Randomnum w.draw, Status := req.Status,
                CreatedAt := w.now 0 }]
    ∧ (VerifyEmail k w s (.ok req)).state.verifications.filter
          (fun v => v.Email == req.Email)
        = [{ Email := req.Email, Otp := Randomnum w.draw, Status := req.Status,
             CreatedAt := w.now 0 }]
    ∧ (1000 ≤ Randomnum w.draw ∧ Randomnum w.draw ≤ 1999)
    ∧ (VerifyEmail k w s (.ok req)).mails = [⟨req.Email, Randomnum w.draw⟩]
    ∧ (VerifyEmail k w s (.ok req)).reply = Reply.msg 200 false "OTP sent successfully" := by
  have hget := GetSingleRecordByEmail_eq_zero hnone
  have hout : VerifyEmail k w s (.ok req)
      = ⟨{ s with verifications := s.verifications
            ++ [{ Email := req.Email, Otp := Randomnum w.draw, Status := req.Status,
                  CreatedAt := w.now 0 }] },
         Reply.msg 200 false "OTP sent successfully",
         [⟨req.Email, Randomnum w.draw⟩]⟩ := by
    simp [VerifyEmail, hE, hget, Verification.zero, SendEmailSendGrid, hkey, hsend,
      Insert, hins]
  rw [hout]
  refine ⟨rfl, ?_, Randomnum_range w.draw, rfl, rfl⟩
  simp [List.filter_append, filter_email_eq_nil hnone]

/-- The first request of `a@x.com` at second 1000 with the draw 234, on a
store that accepts the insert. -/
theorem VerifyEmail_first_issue_witness :
    (VerifyEmail specConstant (healthyWorld 1000 234) ⟨[], []⟩
        (.ok ⟨"a@x.com", 0, false, 0⟩)).state.verifications
        = [] ++ [{ Email := "a@x.com", Otp := Randomnum 234, Status := false,
                   CreatedAt := 1000 }]
    ∧ (VerifyEmail specConstant (healthyWorld 1000 234) ⟨[], []⟩
        (.ok ⟨"a@x.com", 0, false, 0⟩)).state.verifications.filter
          (fun v => v.Email == "a@x.com")
        = [{ Email := "a@x.com", Otp := Randomnum 234, Status := false, CreatedAt := 1000 }]
    ∧ (1000 ≤ Randomnum 234 ∧ Randomnum 234 ≤ 1999)
    ∧ (VerifyEmail specConstant (healthyWorld 1000 234) ⟨[], []⟩
        (.ok ⟨"a@x.com", 0, false, 0⟩)).mails = [⟨"a@x.com", Randomnum 234⟩]
    ∧ (VerifyEmail specConstant (healthyWorld 1000 234) ⟨[], []⟩
        (.ok ⟨"a@x.com", 0, false, 0⟩)).reply
        = Reply.msg 200 false "OTP sent successfully" :=
  VerifyEmail_first_issue specConstant (healthyWorld 1000 234) ⟨[], []⟩
    ⟨"a@x.com", 0, false, 0⟩ (by decide) rfl (by decide) rfl rfl

/-- C11 (the code departs from the claim). The store holds the record of
`a@x.com` and none of `b@x.com`. A request-verification for `b@x.com` whose
dispatch succeeds but whose insert the database refuses, as it does for a
body that carries the `_id` of the existing record, is answered
`error = false`, "OTP sent successfully", the code is mailed, and no record
of `b@x.com` is created: `VerifyEmail` discards what `Insert` returns. On a
store that accepts the insert the same request creates the record. -/
theorem VerifyEmail_insert_refused_no_record :
    recordOf [(⟨"a@x.com", 1234, false, 1000⟩ : Verification)] "b@x.com" = none
    ∧ VerifyEmail specConstant
        { healthyWorld 2000 234 with insertErr := some "E11000 duplicate key error" }
        ⟨[⟨"a@x.com", 1234, false, 1000⟩], []⟩ (emailBody "b@x.com")
      = ⟨⟨[⟨"a@x.com", 1234, false, 1000⟩], []⟩,
         Reply.msg 200 false "OTP sent successfully", [⟨"b@x.com", 1234⟩]⟩
    ∧ recordOf (VerifyEmail specConstant
        { healthyWorld 2000 234 with insertErr := some "E11000 duplicate key error" }
        ⟨[⟨"a@x.com", 1234, false, 1000⟩], []⟩
        (emailBody "b@x.com")).state.verifications "b@x.com" = none
    ∧ (VerifyEmail specConstant (healthyWorld 2000 234)
        ⟨[⟨"a@x.com", 1234, false, 1000⟩], []⟩ (emailBody "b@x.com")).state.verifications
      = [⟨"a@x.com", 1234, false, 1000⟩, ⟨"b@x.com", 1234, false, 2000⟩] := by
  refine ⟨?_, ?_, ?_, ?_⟩ <;> decide

/-! ## One record per email -/

theorem map_email_setFirst (data : Verification) (coll : List Verification) :
    (setFirst data coll).map (fun v => v.Email) = coll.map (fun v => v.Email) := by
  induction coll with
  | nil => rfl
  | cons v vs ih =>
    by_cases hv : v.Email = data.Email
    · simp [setFirst, hv]
    · simp [setFirst, hv, ih]

theorem not_mem_emails_of_otp_zero {coll : List Verification} {email : String}
    (hok : StoreOk coll) (h0 : (GetSingleRecordByEmail coll email).Otp = 0) :
    email ∉ coll.map (fun v => v.Email) := by
  cases h : recordOf coll email with
  | none =>
    unfold recordOf at h
    intro hmem
    rcases List.mem_map.mp hmem with ⟨v, hv, hve⟩
    have := List.find?_eq_none.mp h v hv
    simp [hve] at this
  | some r =>
    rw [GetSingleRecordByEmail_eq_of_recordOf h] at h0
    have hr : r ∈ coll := by
      unfold recordOf at h
      exact List.mem_of_find?_eq_some h
    have := (hok r hr).2
    omega

/-- The store after `VerifyEmail` is the store before, or the store with the
record of the request's email rewritten, or, when the lookup answered no
issued code, the store with one record of the request's email appended. -/
theorem VerifyEmail_verifications_cases (k : Constant) (w : World) (s : State)
    (body : Except String Verification) :
    (VerifyEmail k w s body).state.verifications = s.verifications
    ∨ (∃ data, (VerifyEmail k w s body).state.verifications
          = setFirst data s.verifications)
    ∨ (∃ data, (GetSingleRecordByEmail s.verifications data.Email).Otp = 0
          ∧ (VerifyEmail k w s body).state.verifications = s.verifications ++ [data]) := by
  cases body with
  | error e => exact Or.inl rfl
  | ok req =>
    by_cases hE : req.Email = ""
    · exact Or.inl (by simp [VerifyEmail, hE])
    by_cases hkey : w.apiKey = ""
    · by_cases hO : (GetSingleRecordByEmail s.verifications req.Email).Otp = 0
      · exact Or.inl (by simp [VerifyEmail, hE, hO, SendEmailSendGrid, hkey])
      · by_cases hx : expirationTime k (GetSingleRecordByEmail s.verifications req.Email)
            < w.now 0
        · exact Or.inl (by simp [VerifyEmail, hE, hO, hx, SendEmailSendGrid, hkey])
        · exact Or.inl (by simp [VerifyEmail, hE, hO, hx])
    cases hsend : w.sendErr with
    | some e =>
      by_cases hO : (GetSingleRecordByEmail s.verifications req.Email).Otp = 0
      · exact Or.inl (by simp [VerifyEmail, hE, hO, SendEmailSendGrid, hkey, hsend])
      · by_cases hx : expirationTime k (GetSingleRecordByEmail s.verifications req.Email)
            < w.now 0
        · exact Or.inl (by simp [VerifyEmail, hE, hO, hx, SendEmailSendGrid, hkey, hsend])
        · exact Or.inl (by simp [VerifyEmail, hE, hO, hx])
    | none =>
      by_cases hO : (GetSingleRecordByEmail s.verifications req.Email).Otp = 0
      · cases hins : w.insertErr with
        | some e =>
          exact Or.inl (by simp [VerifyEmail, hE, hO, SendEmailSendGrid, hkey, hsend,
            Insert, hins])
        | none =>
          refine Or.inr (Or.inr ⟨⟨req.Email, Randomnum w.draw, req.Status, w.now 0⟩, hO, ?_⟩)
          simp [VerifyEmail, hE, hO, SendEmailSendGrid, hkey, hsend, Insert, hins]
      · by_cases hx : expirationTime k (GetSingleRecordByEmail s.verifications req.Email)
            < w.now 0
        · cases hupd : w.updateErr with
          | some e =>
            exact Or.inl (by simp [VerifyEmail, hE, hO, hx, SendEmailSendGrid, hkey, hsend,
              UpdateVerification, hupd])
          | none =>
            refine Or.inr (Or.inl ⟨⟨req.Email, Randomnum w.draw, req.Status, w.now 1⟩, ?_⟩)
            simp [VerifyEmail, hE, hO, hx, SendEmailSendGrid, hkey, hsend,
              UpdateVerification, hupd]
        · exact Or.inl (by simp [VerifyEmail, hE, hO, hx])

/-- The store after `VerifyOtp` is the store before, or the store with the
record of the request's email rewritten. -/
theorem VerifyOtp_verifications_cases (k : Constant) (w : World) (s : State)
    (body : Except String Verification) :
    (VerifyOtp k w s body).state.verifications = s.verifications
    ∨ (∃ data, (VerifyOtp k w s body).state.verifications
          = setFirst data s.verifications) := by
  cases body with
  | error e => exact Or.inl rfl
  | ok req =>
    by_cases hE : req.Email = ""
    · exact Or.inl (by simp [VerifyOtp, hE])
    by_cases hp : req.Otp ≤ 0
    · exact Or.inl (by simp [VerifyOtp, hE, hp])
    by_cases hs : (GetSingleRecordByEmail s.verifications req.Email).Status = true
    · exact Or.inl (by simp [VerifyOtp, hE, hp, hs])
    by_cases hm : (GetSingleRecordByEmail s.verifications req.Email).Otp = req.Otp
    swap
    · exact Or.inl (by simp [VerifyOtp, hE, hp, hs, hm])
    by_cases hx : expirationTime k (GetSingleRecordByEmail s.verifications req.Email)
        < w.now 0
    · exact Or.inl (by simp [VerifyOtp, hE, hp, hs, hm, hx])
    cases hupd : w.updateErr with
    | some e =>
      exact Or.inl (by simp [VerifyOtp, hE, hp, hs, hm, hx, UpdateEmailVerifiedStatus, hupd])
    | none =>
      refine Or.inr ⟨⟨req.Email, req.Otp, true, w.now 1⟩, ?_⟩
      simp [VerifyOtp, hE, hp, hs, hm, hx, UpdateEmailVerifiedStatus, hupd]

/-- One call of the workflow keeps the emails of a well-shaped store pairwise
different. -/
theorem Call_run_nodup (k : Constant) (s : State) (c : Call)
    (hok : StoreOk s.verifications)
    (hnd : (s.verifications.map (fun v => v.Email)).Nodup) :
    StoreOk (c.run k s).state.verifications
    ∧ ((c.run k s).state.verifications.map (fun v => v.Email)).Nodup := by
  cases c with
  | verifyEmail w body =>
    refine ⟨VerifyEmail_StoreOk k w s body hok, ?_⟩
    show ((VerifyEmail k w s body).state.verifications.map (fun v => v.Email)).Nodup
    rcases VerifyEmail_verifications_cases k w s body with h | ⟨data, h⟩ | ⟨data, h0, h⟩
    · rw [h]; exact hnd
    · rw [h, map_email_setFirst]; exact hnd
    · rw [h, List.map_append]
      refine List.Nodup.append hnd (List.nodup_singleton _) ?_
      intro e he1 he2
      simp only [List.map_cons, List.map_nil, List.mem_singleton] at he2
      rw [he2] at he1
      exact not_mem_emails_of_otp_zero hok h0 he1
  | verifyOtp w body =>
    refine ⟨VerifyOtp_StoreOk k w s body hok, ?_⟩
    show ((VerifyOtp k w s body).state.verifications.map (fun v => v.Email)).Nodup
    rcases VerifyOtp_verifications_cases k w s body with h | ⟨data, h⟩
    · rw [h]; exact hnd
    · rw [h, map_email_setFirst]; exact hnd

theorem execute_nodup (k : Constant) (calls : List Call) (s : State)
    (hok : StoreOk s.verifications)
    (hnd : (s.verifications.map (fun v => v.Email)).Nodup) :
    StoreOk (execute k s calls).verifications
    ∧ ((execute k s calls).verifications.map (fun v => v.Email)).Nodup := by
  induction calls generalizing s with
  | nil => exact ⟨hok, hnd⟩
  | cons c cs ih =>
    have h := Call_run_nodup k s c hok hnd
    exact ih (c.run k s).state h.1 h.2

/-- C12. After any sequential execution of `VerifyEmail` and `VerifyOtp`
calls from an empty verification store, whatever the worlds and bodies of the
calls, the emails of the stored records are pairwise different, and every
stored record has a non-zero code. -/
theorem execute_one_record_per_email (k : Constant) (users : List User)
    (calls : List Call) :
    ((execute k ⟨[], users⟩ calls).verifications.map (fun v => v.Email)).Nodup
    ∧ (∀ r ∈ (execute k ⟨[], users⟩ calls).verifications, r.Otp ≠ 0)
    ∧ ∀ email, ((execute k ⟨[], users⟩ calls).verifications.filter
          (fun v => v.Email == email)).length ≤ 1 := by
  have h := execute_nodup k calls ⟨[], users⟩ (fun r hr => by simp at hr) List.nodup_nil
  refine ⟨h.2, fun r hr => by have := (h.1 r hr).2; omega, ?_⟩
  intro email
  have hcount : ((execute k ⟨[], users⟩ calls).verifications.filter
      (fun v => v.Email == email)).length
      = ((execute k ⟨[], users⟩ calls).verifications.map (fun v => v.Email)).count email := by
    generalize (execute k ⟨[], users⟩ calls).verifications = coll
    induction coll with
    | nil => rfl
    | cons v vs ih =>
      by_cases hv : v.Email = email
      · simp [List.filter_cons, hv, ih]
      · simp [List.filter_cons, hv, ih, List.count_cons]
  rw [hcount]
  exact List.nodup_iff_count_le_one.mp h.2 email

/-! ## Rejection reasons of the verification workflow -/

/-- A call rejected at one of the checks is answered with status 400,
`error = true` and the message constant of that check, and writes nothing. -/
theorem Call_run_of_rejectedBy (k : Constant) (s : State) (c : Call) (x : Cause)
    (h : c.rejectedBy k s = some x) :
    c.run k s = ⟨s, Reply.msg 400 true (x.reason k), []⟩ := by
  cases c with
  | verifyEmail w body =>
    cases body with
    | error e => simp [Call.rejectedBy] at h
    | ok req =>
      by_cases hE : req.Email = ""
      · simp only [Call.rejectedBy, hE, if_true, Option.some.injEq] at h
        subst h
        simp [Call.run, VerifyEmail, hE, Cause.reason]
      · by_cases hS : (GetSingleRecordByEmail s.verifications req.Email).Status = true
        · simp [Call.rejectedBy, hE, hS] at h
        · by_cases hO : (GetSingleRecordByEmail s.verifications req.Email).Otp = 0
          · simp [Call.rejectedBy, hE, hS, hO] at h
          · by_cases hx : expirationTime k
                (GetSingleRecordByEmail s.verifications req.Email) < w.now 0
            · simp [Call.rejectedBy, hE, hS, hO, hx] at h
            · simp [Call.rejectedBy, hE, hS, hO, hx] at h
              subst h
              simp [Call.run, VerifyEmail, hE, hO, hx, Cause.reason]
  | verifyOtp w body =>
    cases body with
    | error e => simp [Call.rejectedBy] at h
    | ok req =>
      by_cases hE : req.Email = ""
      · simp only [Call.rejectedBy, hE, if_true, Option.some.injEq] at h
        subst h
        simp [Call.run, VerifyOtp, hE, Cause.reason]
      by_cases hp : req.Otp ≤ 0
      · simp only [Call.rejectedBy, hE, if_false, hp, if_true, Option.some.injEq] at h
        subst h
        simp [Call.run, VerifyOtp, hE, hp, Cause.reason]
      by_cases hs : (GetSingleRecordByEmail s.verifications req.Email).Status = true
      · simp only [Call.rejectedBy, hE, if_false, hp, hs, if_true, Option.some.injEq] at h
        subst h
        simp [Call.run, VerifyOtp, hE, hp, hs, Cause.reason]
      by_cases hm : (GetSingleRecordByEmail s.verifications req.Email).Otp = req.Otp
      swap
      · simp [Call.rejectedBy, hE, hp, hs, hm] at h
        subst h
        simp [Call.run, VerifyOtp, hE, hp, hs, hm, Cause.reason]
      by_cases hx : expirationTime k (GetSingleRecordByEmail s.verifications req.Email)
          < w.now 0
      · simp [Call.rejectedBy, hE, hp, hs, hm, hx] at h
        subst h
        simp [Call.run, VerifyOtp, hE, hp, hs, hm, hx, Cause.reason]
      · simp [Call.rejectedBy, hE, hp, hs, hm, hx] at h

/-- A request-verification for an email whose record is verified is counted
under no check. -/
theorem rejectedBy_verifyEmail_verified (k : Constant) (w : World) (s : State)
    (req : Verification) (hE : req.Email ≠ "") (hV : Verified s req.Email) :
    (Call.verifyEmail w (.ok req)).rejectedBy k s = none := by
  have h := (GetSingleRecordByEmail_status_iff s req.Email).mpr hV
  simp [Call.rejectedBy, hE, h]

theorem Cause_reason_eq_iff (k : Constant) (hk : k.DistinctReasons) (x y : Cause) :
    x.reason k = y.reason k
      ↔ x = y ∨ (x = Cause.invalidOtp ∧ y = Cause.mismatch)
          ∨ (x = Cause.mismatch ∧ y = Cause.invalidOtp) := by
  simp only [Constant.DistinctReasons, List.nodup_cons, List.mem_cons, List.mem_singleton,
    not_or, List.not_mem_nil, not_false_eq_true, List.nodup_nil, and_true] at hk
  obtain ⟨⟨h12, h13, h14, h15⟩, ⟨h23, h24, h25⟩, ⟨h34, h35⟩, h45⟩ := hk
  cases x <;> cases y <;>
    simp [Cause.reason, h12, h13, h14, h15, h23, h24, h25, h34, h35, h45,
      Ne.symm h12, Ne.symm h13, Ne.symm h14, Ne.symm h15, Ne.symm h23, Ne.symm h24,
      Ne.symm h25, Ne.symm h34, Ne.symm h35, Ne.symm h45]

/-- C13 as stated fails: against the unverified record of `a@x.com` with code
`1234`, inside its window, a submission with the invalid code `0` and a
submission with the non-matching code `9999` are rejected for two different
causes, the invalid OTP value and the OTP mismatch, and get the same reply,
both written with `constant.OtpValidationError`. -/
theorem rejection_reasons_shared_counterexample :
    Call.rejectedBy specConstant ⟨[⟨"a@x.com", 1234, false, 1000⟩], []⟩
        (Call.verifyOtp (healthyWorld 1600 0) (otpBody "a@x.com" 0))
      = some Cause.invalidOtp
    ∧ Call.rejectedBy specConstant ⟨[⟨"a@x.com", 1234, false, 1000⟩], []⟩
        (Call.verifyOtp (healthyWorld 1600 0) (otpBody "a@x.com" 9999))
      = some Cause.mismatch
    ∧ (VerifyOtp specConstant (healthyWorld 1600 0) ⟨[⟨"a@x.com", 1234, false, 1000⟩], []⟩
        (otpBody "a@x.com" 0)).reply
      = (VerifyOtp specConstant (healthyWorld 1600 0)
          ⟨[⟨"a@x.com", 1234, false, 1000⟩], []⟩ (otpBody "a@x.com" 9999)).reply := by
  refine ⟨?_, ?_, ?_⟩ <;> decide

/-- C13, amended. Count a rejected call under the first check of its handler
that rejects it (empty email; then for a submit-otp: invalid OTP value,
already verified, OTP mismatch, expired; for a request-verification on an
unverified record: OTP already sent), a request-verification for a verified
email being left out. When the five message constants of the workflow have
pairwise different values, two calls rejected at the checks `x` and `y` are
answered with the message constants of these checks, and the two messages
are equal exactly when the checks are the same or are the invalid OTP value
and the OTP mismatch, which share `constant.OtpValidationError`. -/
theorem rejection_reasons (k : Constant) (hk : k.DistinctReasons)
    (s₁ s₂ : State) (c₁ c₂ : Call) (x y : Cause)
    (h₁ : c₁.rejectedBy k s₁ = some x) (h₂ : c₂.rejectedBy k s₂ = some y) :
    (c₁.run k s₁).reply = Reply.msg 400 true (x.reason k)
    ∧ (c₂.run k s₂).reply = Reply.msg 400 true (y.reason k)
    ∧ ((c₁.run k s₁).reply = (c₂.run k s₂).reply
        ↔ x = y ∨ (x = Cause.invalidOtp ∧ y = Cause.mismatch)
            ∨ (x = Cause.mismatch ∧ y = Cause.invalidOtp)) := by
  rw [Call_run_of_rejectedBy k s₁ c₁ x h₁, Call_run_of_rejectedBy k s₂ c₂ y h₂]
  refine ⟨rfl, rfl, ?_⟩
  rw [← Cause_reason_eq_iff k hk x y]
  simp [Reply.msg]

/-- Witness for C13 amended (`rejection_reasons`): an expired matching code
against a request-verification inside the window. -/
theorem rejection_reasons_witness :
    (Call.run specConstant ⟨[⟨"a@x.com", 1234, false, 1000⟩], []⟩
        (Call.verifyOtp (healthyWorld 90000 0) (otpBody "a@x.com" 1234))).reply
      = Reply.msg 400 true (Cause.expired.reason specConstant)
    ∧ (Call.run specConstant ⟨[⟨"a@x.com", 1234, false, 1000⟩], []⟩
        (Call.verifyEmail (healthyWorld 1600 0) (emailBody "a@x.com"))).reply
      = Reply.msg 400 true (Cause.alreadySent.reason specConstant)
    ∧ ((Call.run specConstant ⟨[⟨"a@x.com", 1234, false, 1000⟩], []⟩
          (Call.verifyOtp (healthyWorld 90000 0) (otpBody "a@x.com" 1234))).reply
        = (Call.run specConstant ⟨[⟨"a@x.com", 1234, false, 1000⟩], []⟩
          (Call.verifyEmail (healthyWorld 1600 0) (emailBody "a@x.com"))).reply
        ↔ Cause.expired = Cause.alreadySent
            ∨ (Cause.expired = Cause.invalidOtp ∧ Cause.alreadySent = Cause.mismatch)
            ∨ (Cause.expired = Cause.mismatch ∧ Cause.alreadySent = Cause.invalidOtp)) :=
  rejection_reasons specConstant (by unfold Constant.DistinctReasons; decide)
    ⟨[⟨"a@x.com", 1234, false, 1000⟩], []⟩ ⟨[⟨"a@x.com", 1234, false, 1000⟩], []⟩
    (Call.verifyOtp (healthyWorld 90000 0) (otpBody "a@x.com" 1234))
    (Call.verifyEmail (healthyWorld 1600 0) (emailBody "a@x.com"))
    Cause.expired Cause.alreadySent (by decide) (by decide)

/-! ## Login with a wrong password -/

/-- C14. When the directory answers the user `u` for the email of a login
request and `bcrypt.CompareHashAndPassword` returns an error for `u`'s stored
hash and the request's password, `UserLogin` writes one reply, status 400
with `error = true` and `constant.PasswordNotMatchedError`, changes
nothing, never calls the token issuer, and the reply has no `token` key. -/
theorem UserLogin_wrong_password (k : Constant) (w : World) (s : State) (req : Login)
    (u : User) (e : String)
    (hE : req.Email ≠ "")
    (hu : s.users.find? (fun x => x.Email == req.Email) = some u)
    (hcmp : w.CompareHashAndPassword u.Password req.Password = some e) :
    UserLogin k w s (.ok req) = Run.reply s (Write.msg 400 true k.PasswordNotMatchedError)
    ∧ (UserLogin k w s (.ok req)).signed = []
    ∧ ∀ wr ∈ (UserLogin k w s (.ok req)).writes, wr.body.lookup "token" = none := by
  have hget : GetSingleRecordByEmailForUser s.users req.Email = u := by
    simp [GetSingleRecordByEmailForUser, hu]
  have hue : u.Email = req.Email := by simpa using List.find?_some hu
  have hne : ¬ u.Email = "" := by rw [hue]; exact hE
  have hout : UserLogin k w s (.ok req)
      = Run.reply s (Write.msg 400 true k.PasswordNotMatchedError) := by
    simp [UserLogin, hget, hne, hcmp]
  rw [hout]
  refine ⟨rfl, rfl, ?_⟩
  intro wr hwr
  simp only [Run.reply, List.mem_singleton] at hwr
  rw [hwr]
  rfl

/-- Witness for C14 (`UserLogin_wrong_password`): the registered user
`a@x.com` with the hash of `pw` logs in with `wrong`. -/
theorem UserLogin_wrong_password_witness :
    UserLogin specConstant (healthyWorld 1800 0)
        ⟨[], [⟨"A", "a@x.com", "555", "$2a$04$pw", "normal", 1700, 1700⟩]⟩
        (.ok ⟨"a@x.com", "wrong"⟩)
      = Run.reply ⟨[], [⟨"A", "a@x.com", "555", "$2a$04$pw", "normal", 1700, 1700⟩]⟩
          (Write.msg 400 true specConstant.PasswordNotMatchedError)
    ∧ (UserLogin specConstant (healthyWorld 1800 0)
        ⟨[], [⟨"A", "a@x.com", "555", "$2a$04$pw", "normal", 1700, 1700⟩]⟩
        (.ok ⟨"a@x.com", "wrong"⟩)).signed = []
    ∧ ∀ wr ∈ (UserLogin specConstant (healthyWorld 1800 0)
        ⟨[], [⟨"A", "a@x.com", "555", "$2a$04$pw", "normal", 1700, 1700⟩]⟩
        (.ok ⟨"a@x.com", "wrong"⟩)).writes, wr.body.lookup "token" = none :=
  UserLogin_wrong_password specConstant (healthyWorld 1800 0)
    ⟨[], [⟨"A", "a@x.com", "555", "$2a$04$pw", "normal", 1700, 1700⟩]⟩
    ⟨"a@x.com", "wrong"⟩ ⟨"A", "a@x.com", "555", "$2a$04$pw", "normal", 1700, 1700⟩
    "crypto/bcrypt: hashedPassword is not the hash of the given password"
    (by decide) (by decide) (by decide)

/-! ## Registration when hashing fails -/

/-- C15 (the code departs from the claim). The verified address `a@x.com`
registers with a password of 73 bytes in a world whose bcrypt refuses it:
`GenPassHash` returns `""`, and `RegisterUser` inserts the user with the
empty password hash and answers `error = false`. -/
theorem RegisterUser_stores_empty_hash :
    GenPassHash (strictBcryptWorld 1700 0) (String.mk (List.replicate 73 'a')) = ""
    ∧ RegisterUser specConstant (strictBcryptWorld 1700 0)
        ⟨[⟨"a@x.com", 1234, true, 1600⟩], []⟩
        (.ok ⟨"A", "a@x.com", "555", String.mk (List.replicate 73 'a')⟩)
      = ⟨⟨[⟨"a@x.com", 1234, true, 1600⟩],
          [⟨"A", "a@x.com", "555", "", "normal", 1700, 1700⟩]⟩,
         Reply.json { status := 200, error := false, message := "Registration successful",
                      data := some ⟨"A", "a@x.com", "555", "", "normal", 1700, 1700⟩,
                      token := some "jwt:a@x.com:normal" },
         []⟩ := by
  refine ⟨?_, ?_⟩ <;> decide

/-! ## Product mutation by a user who is not an admin -/

theorem UserType_ne_admin (k : Constant) (users : List User) (email : String)
    (hadm : k.AdminUser ≠ "")
    (hrole : ∀ u, users.find? (fun x => x.Email == email) = some u →
      u.UserType ≠ k.AdminUser) :
    (GetSingleRecordByEmailForUser users email).UserType ≠ k.AdminUser := by
  unfold GetSingleRecordByEmailForUser
  cases h : users.find? (fun x => x.Email == email) with
  | none => exact fun he => hadm he.symm
  | some u => exact hrole u h

/-- C17. Let `constant.AdminUser` be non-empty, and let the identity the Auth
Gate put in the context be an email whose user record, if there is one, has a
role other than admin. Then `RegisterProduct`, `UpdateProduct` and
`DeleteProduct` each write one reply, `constant.NotAuthorizedUserError`, and
leave the user and product collections as they were. -/
theorem product_mutation_admin_only (k : Constant) (w : World) (s : Shop) (email : String)
    (c₁ : Context ProductClient) (c₂ : Context UpdateProductBody) (c₃ : Context Unit)
    (hadm : k.AdminUser ≠ "")
    (hrole : ∀ u, s.users.find? (fun x => x.Email == email) = some u →
      u.UserType ≠ k.AdminUser)
    (h₁ : c₁.email = some email) (h₂ : c₂.email = some email) (h₃ : c₃.email = some email) :
    RegisterProduct k w s c₁ = Run.reply s (Write.err 500 k.NotAuthorizedUserError)
    ∧ UpdateProduct k w s c₂ = Run.reply s (Write.err 500 k.NotAuthorizedUserError)
    ∧ DeleteProduct k w s c₃ = Run.reply s (Write.err 500 k.NotAuthorizedUserError) := by
  have h := UserType_ne_admin k s.users email hadm hrole
  refine ⟨?_, ?_, ?_⟩
  · simp [RegisterProduct, h₁, h]
  · simp [UpdateProduct, h₂, h]
  · simp [DeleteProduct, h₃, h]

/-- Witness for C17 (`product_mutation_admin_only`): the normal user
`a@x.com` tries to register, update and delete a product. -/
theorem product_mutation_admin_only_witness :
    RegisterProduct specConstant (healthyWorld 1800 0)
        ⟨[⟨"A", "a@x.com", "555", "$2a$04$pw", "normal", 1700, 1700⟩],
         [⟨7, "pen", "a pen", 3, "pen.png", "", 100, 100⟩]⟩
        ⟨some "a@x.com", "", "", .ok ⟨"ink", "blue ink", 2, "ink.png", ""⟩⟩
      = Run.reply ⟨[⟨"A", "a@x.com", "555", "$2a$04$pw", "normal", 1700, 1700⟩],
                   [⟨7, "pen", "a pen", 3, "pen.png", "", 100, 100⟩]⟩
          (Write.err 500 specConstant.NotAuthorizedUserError)
    ∧ UpdateProduct specConstant (healthyWorld 1800 0)
        ⟨[⟨"A", "a@x.com", "555", "$2a$04$pw", "normal", 1700, 1700⟩],
         [⟨7, "pen", "a pen", 3, "pen.png", "", 100, 100⟩]⟩
        ⟨some "a@x.com", "", "", .ok ⟨"000000000000000000000007", "", "", 1⟩⟩
      = Run.reply ⟨[⟨"A", "a@x.com", "555", "$2a$04$pw", "normal", 1700, 1700⟩],
                   [⟨7, "pen", "a pen", 3, "pen.png", "", 100, 100⟩]⟩
          (Write.err 500 specConstant.NotAuthorizedUserError)
    ∧ DeleteProduct specConstant (healthyWorld 1800 0)
        ⟨[⟨"A", "a@x.com", "555", "$2a$04$pw", "normal", 1700, 1700⟩],
         [⟨7, "pen", "a pen", 3, "pen.png", "", 100, 100⟩]⟩
        ⟨some "a@x.com", "", "000000000000000000000007", .ok ()⟩
      = Run.reply ⟨[⟨"A", "a@x.com", "555", "$2a$04$pw", "normal", 1700, 1700⟩],
                   [⟨7, "pen", "a pen", 3, "pen.png", "", 100, 100⟩]⟩
          (Write.err 500 specConstant.NotAuthorizedUserError) :=
  product_mutation_admin_only specConstant (healthyWorld 1800 0)
    ⟨[⟨"A", "a@x.com", "555", "$2a$04$pw", "normal", 1700, 1700⟩],
     [⟨7, "pen", "a pen", 3, "pen.png", "", 100, 100⟩]⟩
    "a@x.com"
    ⟨some "a@x.com", "", "", .ok ⟨"ink", "blue ink", 2, "ink.png", ""⟩⟩
    ⟨some "a@x.com", "", "", .ok ⟨"000000000000000000000007", "", "", 1⟩⟩
    ⟨some "a@x.com", "", "000000000000000000000007", .ok ()⟩
    (by decide)
    (by
      intro u hu
      have h0 : List.find? (fun x => x.Email == "a@x.com")
          [(⟨"A", "a@x.com", "555", "$2a$04$pw", "normal", 1700, 1700⟩ : User)]
          = some ⟨"A", "a@x.com", "555", "$2a$04$pw", "normal", 1700, 1700⟩ := by decide
      have h : u = ⟨"A", "a@x.com", "555", "$2a$04$pw", "normal", 1700, 1700⟩ :=
        (Option.some.inj (h0.symm.trans hu)).symm
      rw [h]
      decide)
    rfl rfl rfl

/-! ## Identity in the protected user handlers -/

/-- C18 (the code departs from the claim). The directory holds `a@x.com`
under `_id` 1 and `b@x.com` under `_id` 2. With the identity `a@x.com` in the
context, `UpdateUser` with a body naming `_id` 2 rewrites the password of
`b@x.com`, and `GetSingleUser` with the path parameter naming `_id` 2 answers
the record of `b@x.com`; with no identity in the context at all, both do the
same. Neither handler reads the context's email. -/
theorem user_handlers_ignore_identity :
    (UpdateUser specConstant (healthyWorld 5000 0)
        [⟨1, ⟨"A", "a@x.com", "555", "$2a$04$pw", "normal", 1700, 1700⟩⟩,
         ⟨2, ⟨"B", "b@x.com", "777", "$2a$04$secret", "normal", 1800, 1800⟩⟩]
        ⟨some "a@x.com", "", "",
         .ok ⟨"000000000000000000000002", "", "", "", "chosen-by-a"⟩⟩).state
      = [⟨1, ⟨"A", "a@x.com", "555", "$2a$04$pw", "normal", 1700, 1700⟩⟩,
         ⟨2, ⟨"B", "b@x.com", "777", "chosen-by-a", "normal", 1800, 5000⟩⟩]
    ∧ (UpdateUser specConstant (healthyWorld 5000 0)
        [⟨1, ⟨"A", "a@x.com", "555", "$2a$04$pw", "normal", 1700, 1700⟩⟩,
         ⟨2, ⟨"B", "b@x.com", "777", "$2a$04$secret", "normal", 1800, 1800⟩⟩]
        ⟨none, "", "",
         .ok ⟨"000000000000000000000002", "", "", "", "chosen-by-a"⟩⟩).state
      = [⟨1, ⟨"A", "a@x.com", "555", "$2a$04$pw", "normal", 1700, 1700⟩⟩,
         ⟨2, ⟨"B", "b@x.com", "777", "chosen-by-a", "normal", 1800, 5000⟩⟩]
    ∧ (GetSingleUser specConstant (healthyWorld 5000 0)
        [⟨1, ⟨"A", "a@x.com", "555", "$2a$04$pw", "normal", 1700, 1700⟩⟩,
         ⟨2, ⟨"B", "b@x.com", "777", "$2a$04$secret", "normal", 1800, 1800⟩⟩]
        ⟨some "a@x.com", "000000000000000000000002", "", .ok ()⟩).writes
      = [{ status := 200,
           body := [("message", JVal.str "success"), ("error", JVal.bool true),
                    ("data", JVal.user
                      ⟨2, ⟨"B", "b@x.com", "777", "", "normal", 1800, 1800⟩⟩)] }]
    ∧ (GetSingleUser specConstant (healthyWorld 5000 0)
        [⟨1, ⟨"A", "a@x.com", "555", "$2a$04$pw", "normal", 1700, 1700⟩⟩,
         ⟨2, ⟨"B", "b@x.com", "777", "$2a$04$secret", "normal", 1800, 1800⟩⟩]
        ⟨none, "000000000000000000000002", "", .ok ()⟩).writes
      = [{ status := 200,
           body := [("message", JVal.str "success"), ("error", JVal.bool true),
                    ("data", JVal.user
                      ⟨2, ⟨"B", "b@x.com", "777", "", "normal", 1800, 1800⟩⟩)] }] := by
  refine ⟨?_, ?_, ?_, ?_⟩ <;> decide

/-- Handlers `UpdateUser` and `GetSingleUser` give the same result whatever
the context holds under `"email"`. -/
theorem user_handlers_email_irrelevant (k : Constant) (w : World) (s : List UserDoc)
    (c : Context UserUpdateClient) (d : Context Unit) (e : Option String) :
    UpdateUser k w s { c with email := e } = UpdateUser k w s c
    ∧ GetSingleUser k w s { d with email := e } = GetSingleUser k w s d :=
  ⟨rfl, rfl⟩

/-! ## Route wiring -/

theorem ClientRoutes_eq (rc : RouteConstant) (apiVersion : String) :
    ClientRoutes rc apiVersion
      = (userRoutes rc).map (fun r =>
          { method := r.Method, path := [apiVersion, "/ecommerce", r.Pattern],
            chain := [Handler.Logger, Handler.Recovery, Handler.CORSEMiddleware,
                      r.HandlerFunc] })
        ++ (productGlobalRoutes rc).map (fun r =>
          { method := r.Method, path := [apiVersion, "/ecommerce-product", r.Pattern],
            chain := [Handler.Logger, Handler.Recovery, Handler.CORSEMiddleware,
                      r.HandlerFunc] })
        ++ (productRoutes rc).map (fun r =>
          { method := r.Method, path := [apiVersion, "/ecommerce", r.Pattern],
            chain := [Handler.Logger, Handler.Recovery, Handler.Auth,
                      Handler.CORSEMiddleware, r.HandlerFunc] })
        ++ (userAuthRoutes rc).map (fun r =>
          { method := r.Method, path := [apiVersion, "/ecommerce", r.Pattern],
            chain := [Handler.Logger, Handler.Recovery, Handler.Auth,
                      Handler.CORSEMiddleware, r.HandlerFunc] }) := by
  simp [ClientRoutes, EcommerceUser, EcommerceGlobalProductRoutes, EcommerceProduct,
    EcommerceAuthUser, userRoutes, productGlobalRoutes, productRoutes, userAuthRoutes,
    registerRoute, RouterGroup.Group, RouterGroup.Use, RouterGroup.handle]

/-- C19. Whatever the route patterns and the API version: every route of
`productRoutes` and `userAuthRoutes` is in the engine with its own method and
pattern and a chain in which the Auth Gate comes before the route's handler,
which is last; and every route of the engine whose handler is one of
`userRoutes` or `productGlobalRoutes` has no Auth Gate in its chain. The
engine holds the fifteen routes of the four tables and no other. -/
theorem ClientRoutes_gate (rc : RouteConstant) (apiVersion : String) :
    (∀ r ∈ productRoutes rc ++ userAuthRoutes rc,
        ∃ e ∈ ClientRoutes rc apiVersion,
          e.method = r.Method ∧ e.path = [apiVersion, "/ecommerce", r.Pattern]
          ∧ ∃ before between, e.chain = before ++ [Handler.Auth] ++ between ++ [r.HandlerFunc])
    ∧ (∀ r ∈ userRoutes rc ++ productGlobalRoutes rc,
        (∃ e ∈ ClientRoutes rc apiVersion,
          e.method = r.Method ∧ e.path.getLast? = some r.Pattern
          ∧ e.chain.getLast? = some r.HandlerFunc)
        ∧ ∀ e ∈ ClientRoutes rc apiVersion,
            e.chain.getLast? = some r.HandlerFunc → Handler.Auth ∉ e.chain)
    ∧ (ClientRoutes rc apiVersion).length = 15 := by
  rw [ClientRoutes_eq]
  refine ⟨?_, ?_, ?_⟩
  · intro r hr
    refine ⟨{ method := r.Method, path := [apiVersion, "/ecommerce", r.Pattern],
              chain := [Handler.Logger, Handler.Recovery, Handler.Auth,
                        Handler.CORSEMiddleware, r.HandlerFunc] }, ?_, rfl, rfl,
            [Handler.Logger, Handler.Recovery], [Handler.CORSEMiddleware], rfl⟩
    rcases List.mem_append.mp hr with h | h
    · exact List.mem_append_left _ (List.mem_append_right _
        (List.mem_map.mpr ⟨r, h, rfl⟩))
    · exact List.mem_append_right _ (List.mem_map.mpr ⟨r, h, rfl⟩)
  · intro r hr
    refine ⟨?_, ?_⟩
    · rcases List.mem_append.mp hr with h | h
      · exact ⟨{ method := r.Method, path := [apiVersion, "/ecommerce", r.Pattern],
                 chain := [Handler.Logger, Handler.Recovery, Handler.CORSEMiddleware,
                           r.HandlerFunc] },
          List.mem_append_left _ (List.mem_append_left _ (List.mem_append_left _
            (List.mem_map.mpr ⟨r, h, rfl⟩))), rfl, rfl, rfl⟩
      · exact ⟨{ method := r.Method, path := [apiVersion, "/ecommerce-product", r.Pattern],
                 chain := [Handler.Logger, Handler.Recovery, Handler.CORSEMiddleware,
                           r.HandlerFunc] },
          List.mem_append_left _ (List.mem_append_left _ (List.mem_append_right _
            (List.mem_map.mpr ⟨r, h, rfl⟩))), rfl, rfl, rfl⟩
    · intro e he hlast
      simp only [userRoutes, productGlobalRoutes, List.cons_append, List.nil_append,
        List.mem_cons, List.mem_singleton, List.not_mem_nil, or_false] at hr
      simp only [userRoutes, productGlobalRoutes, productRoutes, userAuthRoutes,
        List.map_cons, List.map_nil, List.cons_append, List.nil_append, List.mem_cons,
        List.mem_singleton, List.not_mem_nil, or_false] at he
      rcases he with rfl | rfl | rfl | rfl | rfl | rfl | rfl | rfl | rfl | rfl | rfl | rfl
        | rfl | rfl | rfl <;>
        rcases hr with rfl | rfl | rfl | rfl | rfl | rfl | rfl <;> simp_all
  · simp [userRoutes, productGlobalRoutes, productRoutes, userAuthRoutes]

/-! ## Partial overwrite of a user -/

theorem find_setUser (u : UserDoc) (coll : List UserDoc) {d : UserDoc}
    (h : coll.find? (fun x => x.Id == u.Id) = some d) :
    (setUser u coll).find? (fun x => x.Id == u.Id) = some u := by
  induction coll with
  | nil => simp at h
  | cons v vs ih =>
    by_cases hv : v.Id = u.Id
    · simp [setUser, hv]
    · have hb : (v.Id == u.Id) = false := by simpa using hv
      rw [List.find?_cons, hb] at h
      simp [setUser, hv, ih h]

theorem length_setUser (u : UserDoc) (coll : List UserDoc) :
    (setUser u coll).length = coll.length := by
  induction coll with
  | nil => rfl
  | cons v vs ih =>
    by_cases hv : v.Id = u.Id <;> simp [setUser, hv, ih]

/-- C20. Let the body of an update request be `r`, let `r.Id` parse to the
`_id` under which the directory holds the user `u` (found by its non-empty
email), and let the store update succeed. Then the record persisted under
that `_id` has name, email, phone and password equal to `r`'s field when the
field is non-empty and to `u`'s otherwise, `UpdatedAt` equal to the clock
reading of the call, and `_id`, role and `CreatedAt` equal to `u`'s; no
record is added or removed. -/
theorem UpdateUser_partial_overwrite (k : Constant) (w : World) (s : List UserDoc)
    (c : Context UserUpdateClient) (r : UserUpdateClient) (id : ObjectID) (u : UserDoc)
    (hbody : c.body = .ok r)
    (hid : w.ObjectIDFromHex r.Id = .ok id)
    (hu : s.find? (fun d => d.Id == id) = some u)
    (hE : u.doc.Email ≠ "")
    (hupd : w.updateErr = none) :
    (UpdateUser k w s c).state.find? (fun d => d.Id == id)
      = some { Id := u.Id,
               doc := { Name := if r.Name ≠ "" then r.Name else u.doc.Name,
                        Email := if r.Email ≠ "" then r.Email else u.doc.Email,
                        Phone := if r.Phone ≠ "" then r.Phone else u.doc.Phone,
                        Password := if r.Password ≠ "" then r.Password else u.doc.Password,
                        UserType := u.doc.UserType,
                        CreatedAt := u.doc.CreatedAt,
                        UpdatedAt := w.now 0 } }
    ∧ (UpdateUser k w s c).state.length = s.length := by
  have hget : Mgr.GetSingleUserByUserId s id = (u, none) := by
    simp [Mgr.GetSingleUserByUserId, hu]
  have huid : u.Id = id := by simpa using List.find?_some hu
  have hout : (UpdateUser k w s c).state
      = setUser { Id := id,
                  doc := { Name := if r.Name ≠ "" then r.Name else u.doc.Name,
                           Email := if r.Email ≠ "" then r.Email else u.doc.Email,
                           Phone := if r.Phone ≠ "" then r.Phone else u.doc.Phone,
                           Password :=
                             if r.Password ≠ "" then r.Password else u.doc.Password,
                           UserType := u.doc.UserType,
                           CreatedAt := u.doc.CreatedAt,
                           UpdatedAt := w.now 0 } } s := by
    simp [UpdateUser, hbody, hid, hget, hE, Mgr.UpdateUser, hupd, Run.reply]
  have hfind : ∀ X : UserDoc, X.Id = id →
      (setUser X s).find? (fun d => d.Id == id) = some X := by
    intro X hX
    subst hX
    exact find_setUser X s hu
  rw [hout, huid]
  exact ⟨hfind _ rfl, length_setUser _ _⟩

/-- Witness for C20 (`UpdateUser_partial_overwrite`): the user under `_id` 2
changes the phone and leaves every other field of the body empty. -/
theorem UpdateUser_partial_overwrite_witness :
    (UpdateUser specConstant (healthyWorld 5000 0)
        [⟨1, ⟨"A", "a@x.com", "555", "$2a$04$pw", "normal", 1700, 1700⟩⟩,
         ⟨2, ⟨"B", "b@x.com", "777", "$2a$04$secret", "normal", 1800, 1800⟩⟩]
        ⟨some "b@x.com", "", "",
         .ok ⟨"000000000000000000000002", "", "", "888", ""⟩⟩).state.find?
          (fun d => d.Id == 2)
      = some { Id := 2,
               doc := { Name := if ("" : String) ≠ "" then "" else "B",
                        Email := if ("" : String) ≠ "" then "" else "b@x.com",
                        Phone := if ("888" : String) ≠ "" then "888" else "777",
                        Password := if ("" : String) ≠ "" then "" else "$2a$04$secret",
                        UserType := "normal",
                        CreatedAt := 1800,
                        UpdatedAt := 5000 } }
    ∧ (UpdateUser specConstant (healthyWorld 5000 0)
        [⟨1, ⟨"A", "a@x.com", "555", "$2a$04$pw", "normal", 1700, 1700⟩⟩,
         ⟨2, ⟨"B", "b@x.com", "777", "$2a$04$secret", "normal", 1800, 1800⟩⟩]
        ⟨some "b@x.com", "", "",
         .ok ⟨"000000000000000000000002", "", "", "888", ""⟩⟩).state.length = 2 :=
  UpdateUser_partial_overwrite specConstant (healthyWorld 5000 0)
    [⟨1, ⟨"A", "a@x.com", "555", "$2a$04$pw", "normal", 1700, 1700⟩⟩,
     ⟨2, ⟨"B", "b@x.com", "777", "$2a$04$secret", "normal", 1800, 1800⟩⟩]
    ⟨some "b@x.com", "", "", .ok ⟨"000000000000000000000002", "", "", "888", ""⟩⟩
    ⟨"000000000000000000000002", "", "", "888", ""⟩ 2
    ⟨2, ⟨"B", "b@x.com", "777", "$2a$04$secret", "normal", 1800, 1800⟩⟩
    rfl rfl (by decide) (by decide) rfl

/-! ## Keys of the JSON replies -/

theorem Write_msg_keys (status : Nat) (error : Bool) (message : String) :
    (Write.msg status error message).hasErrorAndMessage = true := rfl

theorem Write_err_keys (status : Nat) (message : String) :
    (Write.err status message).hasErrorAndMessage = false
    ∧ (Write.err status message).body.lookup "error" = none := ⟨rfl, rfl⟩

/-- Every reply `UserLogin`, `UpdateUser` and `GetSingleUser` write has a
boolean under `error` and a string under `message`. -/
theorem user_handlers_write_keys (k : Constant) (w : World) (s : State)
    (dir : List UserDoc) (body : Except String Login) (c : Context UserUpdateClient)
    (d : Context Unit) :
    (∀ wr ∈ (UserLogin k w s body).writes, wr.hasErrorAndMessage = true)
    ∧ (∀ wr ∈ (UpdateUser k w dir c).writes, wr.hasErrorAndMessage = true)
    ∧ (∀ wr ∈ (GetSingleUser k w dir d).writes, wr.hasErrorAndMessage = true) := by
  refine ⟨?_, ?_, ?_⟩
  · unfold UserLogin
    dsimp only
    repeat' split
    all_goals
      intro wr hwr
      simp only [Run.reply, List.mem_singleton, List.not_mem_nil] at hwr
      try (subst hwr; rfl)
  · unfold UpdateUser
    dsimp only
    repeat' split
    all_goals
      intro wr hwr
      simp only [Run.reply, List.mem_singleton, List.not_mem_nil] at hwr
      try (subst hwr; rfl)
  · unfold GetSingleUser
    dsimp only
    repeat' split
    all_goals
      intro wr hwr
      simp only [List.mem_append, List.mem_singleton, List.not_mem_nil, List.nil_append,
        List.mem_cons, or_false, false_or] at hwr
      try (rcases hwr with hwr | hwr <;> (subst hwr; rfl))
      try (subst hwr; rfl)

/-- C21 (the code departs from the claim). The normal user `a@x.com` asks to
register a product: `RegisterProduct` writes the JSON object
`{"err": true, "message": ...}`, which has no field named `error`. The
success reply of the same handler, written for an admin, has
`"error": false`. Every error reply of the product handlers is written with
the key `err`. -/
theorem product_error_reply_lacks_error_key :
    (RegisterProduct specConstant (healthyWorld 1800 0)
        ⟨[⟨"A", "a@x.com", "555", "$2a$04$pw", "normal", 1700, 1700⟩], []⟩
        ⟨some "a@x.com", "", "", .ok ⟨"ink", "blue ink", 2, "ink.png", ""⟩⟩).writes
      = [{ status := 500,
           body := [("err", JVal.bool true),
                    ("message", JVal.str "user is not authorized")] }]
    ∧ List.lookup "error"
        [("err", JVal.bool true), ("message", JVal.str "user is not authorized")] = none
    ∧ (RegisterProduct specConstant (healthyWorld 1800 0)
        ⟨[⟨"A", "a@x.com", "555", "$2a$04$pw", "normal", 1700, 1700⟩], []⟩
        ⟨some "a@x.com", "", "", .ok ⟨"ink", "blue ink", 2, "ink.png", ""⟩⟩).writes.all
          Write.hasErrorAndMessage = false
    ∧ (RegisterProduct specConstant (healthyWorld 1800 0)
        ⟨[⟨"Admin", "admin@gmail.com", "", "$2a$04$1234", "admin", 0, 0⟩], []⟩
        ⟨some "admin@gmail.com", "", "", .ok ⟨"ink", "blue ink", 2, "ink.png", ""⟩⟩).writes
      = [{ status := 200,
           body := [("error", JVal.bool false), ("message", JVal.str "success"),
                    ("data", JVal.product
                      ⟨4095, "ink", "blue ink", 2, "ink.png", "", 1800, 1800⟩)] }] := by
  refine ⟨?_, ?_, ?_, ?_⟩ <;> decide

/-! ## Dispatch and binding failures -/

/-- What `VerifyEmail` does when the dispatch fails for an email without an
issued record: it writes status 400 with `error = true` and leaves the state
as it was. -/
theorem VerifyEmail_first_issue_dispatch_failure (k : Constant) (w : World) (s : State)
    (req : Verification) (e : String)
    (hE : req.Email ≠ "")
    (hO : (GetSingleRecordByEmail s.verifications req.Email).Otp = 0)
    (hkey : w.apiKey ≠ "") (hsend : w.sendErr = some e) :
    VerifyEmail k w s (.ok req)
      = ⟨s, Reply.msg 400 true k.EmailValidationError, [⟨req.Email, Randomnum w.draw⟩]⟩ := by
  simp [VerifyEmail, hE, hO, SendEmailSendGrid, hkey, hsend]

/-- What `VerifyEmail` does when the dispatch fails for an issued record
after its window: `log.Panicln` panics, nothing is written. -/
theorem VerifyEmail_resend_dispatch_failure (k : Constant) (w : World) (s : State)
    (req : Verification) (e : String)
    (hE : req.Email ≠ "")
    (hO : (GetSingleRecordByEmail s.verifications req.Email).Otp ≠ 0)
    (hexp : expirationTime k (GetSingleRecordByEmail s.verifications req.Email) < w.now 0)
    (hkey : w.apiKey ≠ "") (hsend : w.sendErr = some e) :
    VerifyEmail k w s (.ok req)
      = ⟨s, Reply.panicked e, [⟨req.Email, Randomnum w.draw⟩]⟩ := by
  simp [VerifyEmail, hE, hO, hexp, SendEmailSendGrid, hkey, hsend]

/-- C22 (the code departs from the claim). With a dispatch that fails: the
first request of `a@x.com` is answered status 400 with `error = true` and the
store unchanged, but a request after the window of an issued record ends in
the panic of `log.Panicln`, with no JSON written. A login whose body cannot
be parsed ends in the panic of `log.Panicln` too. The store is unchanged in
all three. -/
theorem dispatch_and_bind_failures_panic :
    VerifyEmail specConstant { healthyWorld 1000 777 with sendErr := some "send failed" }
        ⟨[], []⟩ (emailBody "a@x.com")
      = ⟨⟨[], []⟩, Reply.msg 400 true "email is empty or invalid", [⟨"a@x.com", 1777⟩]⟩
    ∧ VerifyEmail specConstant { healthyWorld 90000 777 with sendErr := some "send failed" }
        ⟨[⟨"a@x.com", 1234, false, 1000⟩], []⟩ (emailBody "a@x.com")
      = ⟨⟨[⟨"a@x.com", 1234, false, 1000⟩], []⟩, Reply.panicked "send failed",
         [⟨"a@x.com", 1777⟩]⟩
    ∧ VerifyEmail specConstant { healthyWorld 90000 777 with apiKey := "" }
        ⟨[⟨"a@x.com", 1234, false, 1000⟩], []⟩ (emailBody "a@x.com")
      = ⟨⟨[⟨"a@x.com", 1234, false, 1000⟩], []⟩,
         Reply.panicked "SENDGRID_API_KEY environment variable is not set", []⟩
    ∧ UserLogin specConstant (healthyWorld 1800 0)
        ⟨[], [⟨"A", "a@x.com", "555", "$2a$04$pw", "normal", 1700, 1700⟩]⟩
        (.error "unexpected EOF")
      = { state := ⟨[], [⟨"A", "a@x.com", "555", "$2a$04$pw", "normal", 1700, 1700⟩]⟩,
          writes := [], panicked := some "unexpected EOF", signed := [] } := by
  refine ⟨?_, ?_, ?_, ?_⟩ <;> decide

/-! ## Passwords written by `UpdateUser` -/

theorem GenPassHash_healthyWorld (t : Int) (draw : Nat) (p : String) :
    GenPassHash (healthyWorld t draw) p = "$2a$04$" ++ p := rfl

/-- C23 (the code departs from the claim). The address `a@x.com` registers
with the password `pw`, which is stored as `GenPassHash` of it; its record,
held under `_id` 1, then gets an update request with the password `newpw`:
`UpdateUser` persists the text `newpw` itself, which is not an output of
`GenPassHash`. -/
theorem UpdateUser_stores_plaintext_password :
    (RegisterUser specConstant (healthyWorld 1700 0)
        ⟨[⟨"a@x.com", 1234, true, 1600⟩], []⟩
        (.ok ⟨"A", "a@x.com", "555", "pw"⟩)).state.users
      = directory [⟨1, ⟨"A", "a@x.com", "555", GenPassHash (healthyWorld 1700 0) "pw",
                        "normal", 1700, 1700⟩⟩]
    ∧ (UpdateUser specConstant (healthyWorld 5000 0)
        [⟨1, ⟨"A", "a@x.com", "555", GenPassHash (healthyWorld 1700 0) "pw",
              "normal", 1700, 1700⟩⟩]
        ⟨some "a@x.com", "", "",
         .ok ⟨"000000000000000000000001", "", "", "", "newpw"⟩⟩).state
      = [⟨1, ⟨"A", "a@x.com", "555", "newpw", "normal", 1700, 5000⟩⟩]
    ∧ ∀ p, GenPassHash (healthyWorld 5000 0) p ≠ "newpw" := by
  refine ⟨by decide, by decide, ?_⟩
  intro p h
  have h2 := congrArg String.data h
  simp [GenPassHash_healthyWorld, String.data_append] at h2

/-! ## Number of replies per request -/

/-- Handler `GetSingleUser` writes two replies whenever the path parameter is
not a valid identifier. -/
theorem GetSingleUser_bad_id_two_writes (k : Constant) (w : World) (s : List UserDoc)
    (c : Context Unit) (e : String) (h : w.ObjectIDFromHex c.param = .error e) :
    (GetSingleUser k w s c).writes.length = 2
    ∧ (GetSingleUser k w s c).writes.head? = some (Write.msg 400 true e) := by
  unfold GetSingleUser
  simp only [h]
  split <;> exact ⟨rfl, rfl⟩

/-- Handlers `ListProductsController` and `SearchProduct` write two replies,
the error and then the success reply, whenever the query fails. -/
theorem list_handlers_query_error_two_writes (q : QueryWorld) (s : Shop) (c : ListQuery)
    (e : String) (h : ∀ coll searchFilter skip limit, q.Find coll searchFilter skip limit
      = .error e) :
    (ListProductsController q s c).writes
      = [Write.err 500 e,
         { status := 200,
           body := [("error", JVal.bool false), ("message", JVal.str "success"),
                    ("data", JVal.listing [] 0)] }]
    ∧ (SearchProduct q s c).writes
      = [Write.err 500 e,
         { status := 200,
           body := [("error", JVal.bool false), ("message", JVal.str "success"),
                    ("data", JVal.listing [] 0)] }] := by
  constructor
  · simp [ListProductsController, Mgr.GetListProducts, h]
  · simp [SearchProduct, Mgr.SearchProduct, h]

/-- C24 (the code departs from the claim). `GetSingleUser` with the path
parameter `not-hex` writes the error reply and then a second reply;
`ListProductsController` and `SearchProduct` with `page=0`, whose skip of
`-10` the database refuses, write the error reply and then the success
reply. None of the three returns after writing the error. -/
theorem handlers_write_after_error :
    (GetSingleUser specConstant (healthyWorld 5000 0)
        [⟨1, ⟨"A", "a@x.com", "555", "$2a$04$pw", "normal", 1700, 1700⟩⟩]
        ⟨some "a@x.com", "not-hex", "", .ok ()⟩).writes
      = [Write.msg 400 true "the provided hex string is not a valid ObjectID",
         Write.msg 400 true "user is not registered"]
    ∧ (ListProductsController healthyQueryWorld
        ⟨[], [⟨7, "pen", "a pen", 3, "pen.png", "", 100, 100⟩]⟩
        ⟨some "0", none, none, none⟩).writes
      = [Write.err 500 "(BadValue) Skip value must be non-negative",
         { status := 200,
           body := [("error", JVal.bool false), ("message", JVal.str "success"),
                    ("data", JVal.listing [] 0)] }]
    ∧ (SearchProduct healthyQueryWorld
        ⟨[], [⟨7, "pen", "a pen", 3, "pen.png", "", 100, 100⟩]⟩
        ⟨some "0", none, none, some "pen"⟩).writes
      = [Write.err 500 "(BadValue) Skip value must be non-negative",
         { status := 200,
           body := [("error", JVal.bool false), ("message", JVal.str "success"),
                    ("data", JVal.listing [] 0)] }]
    ∧ (ListProductsController healthyQueryWorld
        ⟨[], [⟨7, "pen", "a pen", 3, "pen.png", "", 100, 100⟩]⟩
        ⟨none, none, none, none⟩).writes.length = 1 := by
  refine ⟨?_, ?_, ?_, ?_⟩ <;> decide

/-! ## Credential round trip -/

end Ecommerce
